import Mathlib

/-!
Verification of the ecc C compiler core (semantic analyzer and x86-64 backend)
against its natural-language specification.

The definitions below are shallow embeddings of the functions in
src/analyze.c and src/x86asm.c.  Helper routines that live outside those two
files (the type-system predicates, the libc formatting routine, the string
literal typing done by the lexer) are modelled from the specification and say
so in their doc comments.
-/

namespace Ecc

/-! ## x86-64 backend data model (src/x86asm.c, ecc.h) -/

/-- Register identifiers (`regid_t` values used by the backend). -/
inductive regid where
  | X86R_RAX | X86R_RBX | X86R_RCX | X86R_RDX | X86R_RSI | X86R_RDI
  | X86R_RSP | X86R_RBP
  | X86R_R8 | X86R_R9 | X86R_R10 | X86R_R11 | X86R_R12 | X86R_R13
  | X86R_R14 | X86R_R15
  | X86R_XMM0 | X86R_XMM1 | X86R_XMM2 | X86R_XMM3
  | X86R_XMM4 | X86R_XMM5 | X86R_XMM6 | X86R_XMM7
deriving DecidableEq, Repr

/-- Operand size markers (`x86_insn_size_t`); `X86SZ_NONE` is the zero value a
`calloc`-initialized instruction or operand carries before a size is set. -/
inductive x86_insn_size where
  | X86SZ_NONE | X86SZ_BYTE | X86SZ_WORD | X86SZ_DWORD | X86SZ_QWORD
deriving DecidableEq, Repr

/-- Instruction opcodes (`x86_insn_type_t`). -/
inductive x86_insn_type where
  | X86I_UNKNOWN | X86I_NO_ELEMENTS | X86I_LABEL
  | X86I_LEA | X86I_CALL | X86I_PUSH | X86I_POP | X86I_LEAVE | X86I_RET
  | X86I_JMP | X86I_JE | X86I_JNE | X86I_JNB | X86I_JS
  | X86I_CMP
  | X86I_SETE | X86I_SETNE | X86I_SETLE | X86I_SETL | X86I_SETGE | X86I_SETG
  | X86I_SETA | X86I_SETNB | X86I_SETP | X86I_SETNP
  | X86I_AND | X86I_OR | X86I_XOR | X86I_NOT | X86I_NOP | X86I_NEG
  | X86I_MOV | X86I_ADD | X86I_SUB | X86I_MUL | X86I_IMUL
  | X86I_DIV | X86I_IDIV
  | X86I_SHL | X86I_SHR | X86I_SAR | X86I_ROR
  | X86I_TEST | X86I_SKIP
  | X86I_CVTTSD2SI | X86I_CVTTSS2SI | X86I_CVTSI2SS | X86I_CVTSI2SD
  | X86I_MOVSS | X86I_MOVSD
  | X86I_ADDSS | X86I_ADDSD | X86I_SUBSS | X86I_SUBSD
  | X86I_MULSS | X86I_MULSD | X86I_DIVSS | X86I_DIVSD
  | X86I_CVTSD2SS | X86I_CVTSS2SD
  | X86I_COMISS | X86I_COMISD | X86I_XORPD | X86I_XORPS
  | X86I_UCOMISS | X86I_UCOMISD | X86I_PTEST
  | X86I_MOVZX | X86I_MOVSX
  | X86I_STC | X86I_REP_STOSB | X86I_SYSCALL
deriving DecidableEq, Repr

/-- Operand payloads (`x86_operand_t`, minus the `size` field that every
operand also carries).  `INVALID_VREGID` register slots are `none`. -/
inductive x86_operand_val where
  | X86OP_REGISTER (reg : regid)
  | X86OP_PTR_REGISTER (reg : regid)
  | X86OP_DEREF_REGISTER (offset : Int) (reg_addr : regid)
  | X86OP_ARRAY (reg_base : Option regid) (reg_offset : Option regid)
      (scale : Int) (offset : Int)
  | X86OP_LABEL (label : String)
  | X86OP_LABEL_REF (label : String) (offset : Int)
  | X86OP_TEXT (text : String)
  | X86OP_STRING (str : String)
  | X86OP_IMMEDIATE (immediate : Nat)
deriving DecidableEq, Repr

/-- An x86 operand: a payload together with the per-operand size override
(zero, i.e. `X86SZ_NONE`, when the instruction size should be used). -/
structure x86_operand where
  size : x86_insn_size := .X86SZ_NONE
  val : x86_operand_val
deriving DecidableEq, Repr

/-- An x86 instruction (`x86_insn_t`); the intrusive `next` pointer of the C
struct is replaced by putting instructions in a `List`. -/
structure x86_insn where
  type : x86_insn_type
  size : x86_insn_size := .X86SZ_NONE
  op1 : Option x86_operand := none
  op2 : Option x86_operand := none
  op3 : Option x86_operand := none
deriving DecidableEq, Repr

/-- `x86_insn_uses_suffix` (src/x86asm.c:223): whether the printed mnemonic
gets a size-suffix character appended. -/
def x86_insn_uses_suffix (insn : x86_insn) : Bool :=
  match insn.type with
  | .X86I_UNKNOWN | .X86I_NO_ELEMENTS | .X86I_LABEL
  | .X86I_LEA | .X86I_CALL | .X86I_PUSH | .X86I_POP | .X86I_LEAVE | .X86I_RET
  | .X86I_JMP | .X86I_JE | .X86I_JNE | .X86I_JNB | .X86I_JS
  | .X86I_CMP
  | .X86I_SETE | .X86I_SETNE | .X86I_SETLE | .X86I_SETL | .X86I_SETGE
  | .X86I_SETG
  | .X86I_AND | .X86I_OR | .X86I_XOR | .X86I_NOT | .X86I_NOP | .X86I_NEG
  | .X86I_MOV | .X86I_ADD | .X86I_SUB | .X86I_MUL | .X86I_IMUL
  | .X86I_DIV | .X86I_IDIV
  | .X86I_SHL | .X86I_SHR | .X86I_SAR | .X86I_ROR
  | .X86I_TEST | .X86I_SKIP
  | .X86I_SETA | .X86I_SETNB | .X86I_SETP | .X86I_SETNP
  | .X86I_CVTTSD2SI | .X86I_CVTTSS2SI | .X86I_CVTSI2SS | .X86I_CVTSI2SD =>
      true
  | .X86I_MOVSS | .X86I_MOVSD
  | .X86I_ADDSS | .X86I_ADDSD | .X86I_SUBSS | .X86I_SUBSD
  | .X86I_MULSS | .X86I_MULSD | .X86I_DIVSS | .X86I_DIVSD
  | .X86I_CVTSD2SS | .X86I_CVTSS2SD
  | .X86I_COMISS | .X86I_COMISD | .X86I_XORPD | .X86I_XORPS
  | .X86I_UCOMISS | .X86I_UCOMISD | .X86I_PTEST
  | .X86I_MOVZX | .X86I_MOVSX
  | .X86I_STC | .X86I_REP_STOSB | .X86I_SYSCALL =>
      false

def X86_INSN_WRITES_OP1 : Nat := 0x01
def X86_INSN_WRITES_OP2 : Nat := 0x02
def X86_INSN_WRITES_OP3 : Nat := 0x04

/-- `x86_insn_writes` (src/x86asm.c:310): bitmask of operand positions the
instruction writes. -/
def x86_insn_writes (insn : x86_insn) : Nat :=
  match insn.type with
  | .X86I_UNKNOWN | .X86I_NO_ELEMENTS | .X86I_LABEL | .X86I_CALL | .X86I_PUSH
  | .X86I_LEAVE | .X86I_RET
  | .X86I_JMP | .X86I_JE | .X86I_JNE | .X86I_JNB | .X86I_JS
  | .X86I_CMP | .X86I_COMISS | .X86I_COMISD | .X86I_UCOMISS | .X86I_UCOMISD
  | .X86I_NOP | .X86I_SKIP | .X86I_TEST | .X86I_PTEST | .X86I_STC
  | .X86I_REP_STOSB | .X86I_SYSCALL =>
      0
  | .X86I_POP
  | .X86I_SETE | .X86I_SETNE | .X86I_SETLE | .X86I_SETL | .X86I_SETGE
  | .X86I_SETG | .X86I_SETA | .X86I_SETNB | .X86I_SETP | .X86I_SETNP
  | .X86I_NOT | .X86I_NEG | .X86I_MUL =>
      X86_INSN_WRITES_OP1
  | .X86I_LEA | .X86I_AND | .X86I_OR | .X86I_XOR | .X86I_MOV
  | .X86I_MOVZX | .X86I_MOVSX
  | .X86I_ADD | .X86I_SUB | .X86I_IMUL | .X86I_DIV | .X86I_IDIV
  | .X86I_SHL | .X86I_SHR | .X86I_SAR | .X86I_ROR
  | .X86I_MOVSS | .X86I_MOVSD
  | .X86I_ADDSS | .X86I_ADDSD | .X86I_SUBSS | .X86I_SUBSD
  | .X86I_MULSS | .X86I_MULSD | .X86I_DIVSS | .X86I_DIVSD
  | .X86I_XORPS | .X86I_XORPD
  | .X86I_CVTSD2SS | .X86I_CVTSS2SD | .X86I_CVTSI2SS | .X86I_CVTSI2SD
  | .X86I_CVTTSS2SI | .X86I_CVTTSD2SI =>
      X86_INSN_WRITES_OP2

/-! ### Nonvolatile-register bookkeeping (claim C1) -/

/-- Bit flags of `routine->used_nonvolatiles`; the numeric values come from
ecc.h (not under src/), only their being distinct single bits matters. -/
def USED_NONVOLATILES_RBX : Nat := 0x01
def USED_NONVOLATILES_R12 : Nat := 0x02
def USED_NONVOLATILES_R13 : Nat := 0x04
def USED_NONVOLATILES_R14 : Nat := 0x08
def USED_NONVOLATILES_R15 : Nat := 0x10

/-- The flag for a nonvolatile register, 0 for every other register (the
`default:` arm of the switch in `x86_find_used_nonvolatiles`). -/
def nonvolatile_flag (r : regid) : Nat :=
  match r with
  | .X86R_RBX => USED_NONVOLATILES_RBX
  | .X86R_R12 => USED_NONVOLATILES_R12
  | .X86R_R13 => USED_NONVOLATILES_R13
  | .X86R_R14 => USED_NONVOLATILES_R14
  | .X86R_R15 => USED_NONVOLATILES_R15
  | _ => 0

/-- The register stored in an operand, defined for the register-carrying
payloads.  (The C code reads `op->reg` straight out of the union; this model
is exercised only where the operand really is a register.) -/
def op_reg_field (op : x86_operand) : Option regid :=
  match op.val with
  | .X86OP_REGISTER r => some r
  | .X86OP_PTR_REGISTER r => some r
  | _ => none

/-- Whether an operand has payload class `X86OP_REGISTER`. -/
def op_is_register (op : x86_operand) : Bool :=
  match op.val with
  | .X86OP_REGISTER _ => true
  | _ => false

/-- One iteration of the inner loop of `x86_find_used_nonvolatiles`
(src/x86asm.c:750): for each operand position `i`, if the instruction writes
position `i` and operand `i` is a register operand, the C code switches on
`insn->op1->reg` (not on `ops[i]->reg`) to set a flag. -/
def x86_insn_nonvolatile_flags (insn : x86_insn) : Nat :=
  let writes := x86_insn_writes insn
  let ops := [insn.op1, insn.op2, insn.op3]
  let states := [X86_INSN_WRITES_OP1, X86_INSN_WRITES_OP2, X86_INSN_WRITES_OP3]
  (List.range 3).foldl
    (fun m i =>
      match ops.getD i none with
      | none => m
      | some op =>
          if writes &&& states.getD i 0 ≠ 0 && op_is_register op then
            match insn.op1 with
            | some op1 =>
                match op_reg_field op1 with
                | some r => m ||| nonvolatile_flag r
                | none => m
            | none => m
          else m)
    0

/-- `x86_find_used_nonvolatiles` (src/x86asm.c:750) over a whole routine, the
bitmask starting at 0 (the routine is allocated with `calloc`). -/
def x86_find_used_nonvolatiles (insns : List x86_insn) : Nat :=
  insns.foldl (fun m insn => m ||| x86_insn_nonvolatile_flags insn) 0

def NONVOLATILE_FLAGS : List Nat :=
  [USED_NONVOLATILES_RBX, USED_NONVOLATILES_R12, USED_NONVOLATILES_R13,
   USED_NONVOLATILES_R14, USED_NONVOLATILES_R15]

def NONVOLATILE_REGISTER_NAMES : List String :=
  ["rbx", "r12", "r13", "r14", "r15"]

/-- `x86_write_routine_push_nonvolatiles` (src/x86asm.c:792): the prologue
`pushq` lines, in table order. -/
def x86_write_routine_push_nonvolatiles (used : Nat) : List String :=
  (NONVOLATILE_FLAGS.zip NONVOLATILE_REGISTER_NAMES).filterMap
    (fun p => if used &&& p.1 ≠ 0 then some ("    pushq %" ++ p.2) else none)

/-- `x86_write_routine_pop_nonvolatiles` (src/x86asm.c:801): the epilogue
`popq` lines, in reverse table order. -/
def x86_write_routine_pop_nonvolatiles (used : Nat) : List String :=
  ((NONVOLATILE_FLAGS.zip NONVOLATILE_REGISTER_NAMES).reverse).filterMap
    (fun p => if used &&& p.1 ≠ 0 then some ("    popq %" ++ p.2) else none)

/-- The set (as a bitmask) of nonvolatile registers actually written by a
routine: registers among rbx, r12..r15 occurring in an operand position that
the instruction writes.  This is the quantity the specification claims the
recorded bitmask equals. -/
def routine_written_nonvolatiles (insns : List x86_insn) : Nat :=
  insns.foldl
    (fun m insn =>
      let writes := x86_insn_writes insn
      let ops := [insn.op1, insn.op2, insn.op3]
      let states :=
        [X86_INSN_WRITES_OP1, X86_INSN_WRITES_OP2, X86_INSN_WRITES_OP3]
      (List.range 3).foldl
        (fun m i =>
          match ops.getD i none with
          | none => m
          | some op =>
              if writes &&& states.getD i 0 ≠ 0 && op_is_register op then
                match op_reg_field op with
                | some r => m ||| nonvolatile_flag r
                | none => m
              else m)
        m)
    0

/-- A routine consisting of the single instruction `movq %rax, %rbx`
(operand 1 is the source `%rax`, operand 2 the destination `%rbx`). -/
def c1_mov_rax_rbx : x86_insn :=
  { type := .X86I_MOV, size := .X86SZ_QWORD,
    op1 := some { val := .X86OP_REGISTER .X86R_RAX },
    op2 := some { val := .X86OP_REGISTER .X86R_RBX } }

/-- A routine consisting of the single instruction `movq %rbx, %rax`:
`%rbx` is only read, never written. -/
def c1_mov_rbx_rax : x86_insn :=
  { type := .X86I_MOV, size := .X86SZ_QWORD,
    op1 := some { val := .X86OP_REGISTER .X86R_RBX },
    op2 := some { val := .X86OP_REGISTER .X86R_RAX } }

/-! ### Variadic register-save block (claim C2) -/

/-- One store emitted by the varargs prologue: mnemonic, source register and
the offset from `%rbp` it stores to. -/
structure va_store where
  mnemonic : String
  reg : String
  offset : Int
deriving DecidableEq, Repr

/-- `x86_write_varargs_setup` (src/x86asm.c:731): the exact sequence of
stores the backend prints at entry of a variadic routine, one entry per
`fprintf` line of the C function. -/
def x86_write_varargs_setup : List va_store :=
  [⟨"movq", "r9", -8⟩,
   ⟨"movq", "r8", -16⟩,
   ⟨"movq", "rcx", -16⟩,
   ⟨"movq", "rdx", -24⟩,
   ⟨"movq", "rdx", -32⟩,
   ⟨"movq", "rsi", -40⟩,
   ⟨"movq", "rdi", -48⟩,
   ⟨"movaps", "xmm7", -64⟩,
   ⟨"movaps", "xmm6", -80⟩,
   ⟨"movaps", "xmm5", -96⟩,
   ⟨"movaps", "xmm4", -112⟩,
   ⟨"movaps", "xmm3", -128⟩,
   ⟨"movaps", "xmm2", -144⟩,
   ⟨"movaps", "xmm1", -160⟩,
   ⟨"movaps", "xmm0", -176⟩]

/-- The assembly text of one varargs store line. -/
def va_store_line (s : va_store) : String :=
  "    " ++ s.mnemonic ++ " %" ++ s.reg ++ ", " ++ toString s.offset ++ "(%rbp)"

/-- Initial `routine->stackalloc` in `x86_generate_routine`
(src/x86asm.c:2242): variadic routines reserve 176 bytes before any
instruction is translated (and hence before any automatic symbol is given a
stack offset). -/
def x86_generate_routine_initial_stackalloc (uses_varargs : Bool) : Int :=
  if uses_varargs then 0 - 176 else 0

/-- The integer-register stores of the varargs save block. -/
def varargs_gp_stores : List va_store :=
  x86_write_varargs_setup.filter (fun s => s.mnemonic == "movq")

/-! ### Instruction printing (claim C4) -/

/-- `x86_operand_size_character` (src/x86asm.c:211). -/
def x86_operand_size_character (size : x86_insn_size) : Char :=
  match size with
  | .X86SZ_BYTE => 'b'
  | .X86SZ_WORD => 'w'
  | .X86SZ_DWORD => 'l'
  | .X86SZ_QWORD => 'q'
  | _ => '?'

/-- Modelled from the spec: the register-name tables
(`X86_64_QUAD_REGISTERS` and friends) live in a header outside src/; the
names are the standard x86-64 System V names the spec lists in its operand
mapping. -/
def register_name (reg : regid) (size : x86_insn_size) : String :=
  match reg with
  | .X86R_XMM0 => "xmm0" | .X86R_XMM1 => "xmm1" | .X86R_XMM2 => "xmm2"
  | .X86R_XMM3 => "xmm3" | .X86R_XMM4 => "xmm4" | .X86R_XMM5 => "xmm5"
  | .X86R_XMM6 => "xmm6" | .X86R_XMM7 => "xmm7"
  | _ =>
    match size, reg with
    | .X86SZ_QWORD, .X86R_RAX => "rax" | .X86SZ_QWORD, .X86R_RBX => "rbx"
    | .X86SZ_QWORD, .X86R_RCX => "rcx" | .X86SZ_QWORD, .X86R_RDX => "rdx"
    | .X86SZ_QWORD, .X86R_RSI => "rsi" | .X86SZ_QWORD, .X86R_RDI => "rdi"
    | .X86SZ_QWORD, .X86R_RSP => "rsp" | .X86SZ_QWORD, .X86R_RBP => "rbp"
    | .X86SZ_QWORD, .X86R_R8 => "r8" | .X86SZ_QWORD, .X86R_R9 => "r9"
    | .X86SZ_QWORD, .X86R_R10 => "r10" | .X86SZ_QWORD, .X86R_R11 => "r11"
    | .X86SZ_QWORD, .X86R_R12 => "r12" | .X86SZ_QWORD, .X86R_R13 => "r13"
    | .X86SZ_QWORD, .X86R_R14 => "r14" | .X86SZ_QWORD, .X86R_R15 => "r15"
    | .X86SZ_DWORD, .X86R_RAX => "eax" | .X86SZ_DWORD, .X86R_RBX => "ebx"
    | .X86SZ_DWORD, .X86R_RCX => "ecx" | .X86SZ_DWORD, .X86R_RDX => "edx"
    | .X86SZ_DWORD, .X86R_RSI => "esi" | .X86SZ_DWORD, .X86R_RDI => "edi"
    | .X86SZ_DWORD, .X86R_RSP => "esp" | .X86SZ_DWORD, .X86R_RBP => "ebp"
    | .X86SZ_DWORD, .X86R_R8 => "r8d" | .X86SZ_DWORD, .X86R_R9 => "r9d"
    | .X86SZ_DWORD, .X86R_R10 => "r10d" | .X86SZ_DWORD, .X86R_R11 => "r11d"
    | .X86SZ_DWORD, .X86R_R12 => "r12d" | .X86SZ_DWORD, .X86R_R13 => "r13d"
    | .X86SZ_DWORD, .X86R_R14 => "r14d" | .X86SZ_DWORD, .X86R_R15 => "r15d"
    | .X86SZ_WORD, .X86R_RAX => "ax" | .X86SZ_WORD, .X86R_RBX => "bx"
    | .X86SZ_WORD, .X86R_RCX => "cx" | .X86SZ_WORD, .X86R_RDX => "dx"
    | .X86SZ_WORD, .X86R_RSI => "si" | .X86SZ_WORD, .X86R_RDI => "di"
    | .X86SZ_WORD, .X86R_RSP => "sp" | .X86SZ_WORD, .X86R_RBP => "bp"
    | .X86SZ_WORD, .X86R_R8 => "r8w" | .X86SZ_WORD, .X86R_R9 => "r9w"
    | .X86SZ_WORD, .X86R_R10 => "r10w" | .X86SZ_WORD, .X86R_R11 => "r11w"
    | .X86SZ_WORD, .X86R_R12 => "r12w" | .X86SZ_WORD, .X86R_R13 => "r13w"
    | .X86SZ_WORD, .X86R_R14 => "r14w" | .X86SZ_WORD, .X86R_R15 => "r15w"
    | .X86SZ_BYTE, .X86R_RAX => "al" | .X86SZ_BYTE, .X86R_RBX => "bl"
    | .X86SZ_BYTE, .X86R_RCX => "cl" | .X86SZ_BYTE, .X86R_RDX => "dl"
    | .X86SZ_BYTE, .X86R_RSI => "sil" | .X86SZ_BYTE, .X86R_RDI => "dil"
    | .X86SZ_BYTE, .X86R_RSP => "spl" | .X86SZ_BYTE, .X86R_RBP => "bpl"
    | .X86SZ_BYTE, .X86R_R8 => "r8b" | .X86SZ_BYTE, .X86R_R9 => "r9b"
    | .X86SZ_BYTE, .X86R_R10 => "r10b" | .X86SZ_BYTE, .X86R_R11 => "r11b"
    | .X86SZ_BYTE, .X86R_R12 => "r12b" | .X86SZ_BYTE, .X86R_R13 => "r13b"
    | .X86SZ_BYTE, .X86R_R14 => "r14b" | .X86SZ_BYTE, .X86R_R15 => "r15b"
    | _, _ => "(invalid register)"

/-- `x86_write_register` (src/x86asm.c:408). -/
def x86_write_register (reg : regid) (size : x86_insn_size) : String :=
  "%" ++ register_name reg size

/-- `x86_write_operand` (src/x86asm.c:413), returning the printed text. -/
def x86_write_operand (op : x86_operand) (size : x86_insn_size) : String :=
  match op.val with
  | .X86OP_REGISTER reg =>
      x86_write_register reg
        (if op.size ≠ .X86SZ_NONE then op.size else size)
  | .X86OP_PTR_REGISTER reg =>
      "*" ++ x86_write_register reg
        (if op.size ≠ .X86SZ_NONE then op.size else size)
  | .X86OP_DEREF_REGISTER offset reg_addr =>
      (if offset ≠ 0 then toString offset else "") ++ "(" ++
        x86_write_register reg_addr .X86SZ_QWORD ++ ")"
  | .X86OP_ARRAY rb ro scale offset =>
      (if offset ≠ 0 then toString offset else "") ++ "(" ++
        (match rb with
         | some r => x86_write_register r .X86SZ_QWORD
         | none => "") ++ ", " ++
        (match ro with
         | some r => x86_write_register r .X86SZ_QWORD
         | none => "") ++ ", " ++ toString scale ++ ")"
  | .X86OP_LABEL label => label
  | .X86OP_TEXT text => text
  | .X86OP_STRING s => "\"" ++ s ++ "\""
  | .X86OP_LABEL_REF label offset =>
      if offset > 0 then label ++ "+" ++ toString offset ++ "(%rip)"
      else if offset < 0 then label ++ "-" ++ toString offset.natAbs ++ "(%rip)"
      else label ++ "(%rip)"
  | .X86OP_IMMEDIATE imm => "$" ++ toString imm

/-- Printing an operand pointer: `x86_write_operand` returns immediately when
handed a null operand. -/
def x86_write_opt_operand (op : Option x86_operand) (size : x86_insn_size) :
    String :=
  match op with
  | none => ""
  | some o => x86_write_operand o size

/-- The text of the label payload of an operand (used by the `X86I_LABEL`
arm, which prints `insn->op1->label` directly). -/
def operand_label_text (op : Option x86_operand) : String :=
  match op with
  | some { val := .X86OP_LABEL l, .. } => l
  | _ => ""

/-- `x86_write_insn` (src/x86asm.c:468) as the list of strings the successive
`fprintf` calls produce; the whole printed line is their concatenation.
`X86I_SKIP` returns before the final newline and prints nothing. -/
def x86_write_insn_lines (insn : x86_insn) : List String :=
  let sfx : String :=
    if x86_insn_uses_suffix insn then
      String.singleton (x86_operand_size_character insn.size)
    else ""
  let usual1 (name : String) : List String :=
    ["    " ++ name ++ sfx ++ " ", x86_write_opt_operand insn.op1 insn.size,
     "\n"]
  let usual2 (name : String) : List String :=
    ["    " ++ name ++ sfx ++ " ", x86_write_opt_operand insn.op1 insn.size,
     ", ", x86_write_opt_operand insn.op2 insn.size, "\n"]
  let shiftform (name : String) : List String :=
    ["    " ++ name ++ sfx ++ " ",
     x86_write_opt_operand insn.op1 .X86SZ_BYTE, ", ",
     x86_write_opt_operand insn.op2 insn.size, "\n"]
  let setform (name : String) : List String :=
    ["    " ++ name ++ " ", x86_write_opt_operand insn.op1 .X86SZ_BYTE, "\n"]
  let jumpform (name : String) : List String :=
    ["    " ++ name ++ " ", x86_write_opt_operand insn.op1 .X86SZ_QWORD, "\n"]
  match insn.type with
  | .X86I_LABEL => [operand_label_text insn.op1 ++ ":", "\n"]
  | .X86I_LEAVE => ["    leave", "\n"]
  | .X86I_RET => ["    ret", "\n"]
  | .X86I_STC => ["    stc", "\n"]
  | .X86I_NOP => ["    nop", "\n"]
  | .X86I_SYSCALL => ["    syscall", "\n"]
  | .X86I_CALL => jumpform "call"
  | .X86I_JMP => jumpform "jmp"
  | .X86I_JE => jumpform "je"
  | .X86I_JNE => jumpform "jne"
  | .X86I_JNB => jumpform "jnb"
  | .X86I_JS => jumpform "js"
  | .X86I_SETE => setform "sete"
  | .X86I_SETNE => setform "setne"
  | .X86I_SETLE => setform "setle"
  | .X86I_SETL => setform "setl"
  | .X86I_SETGE => setform "setge"
  | .X86I_SETG => setform "setg"
  | .X86I_SETA => setform "seta"
  | .X86I_SETNB => setform "setnb"
  | .X86I_SETP => setform "setp"
  | .X86I_SETNP => setform "setnp"
  | .X86I_PUSH => usual1 "push"
  | .X86I_NEG => usual1 "neg"
  | .X86I_MOV => usual2 "mov"
  | .X86I_MOVSS => usual2 "movss"
  | .X86I_MOVSD => usual2 "movsd"
  | .X86I_MOVSX => usual2 "movsx"
  | .X86I_MOVZX => usual2 "movzx"
  | .X86I_LEA => usual2 "lea"
  | .X86I_AND => usual2 "and"
  | .X86I_OR => usual2 "or"
  | .X86I_CMP => usual2 "cmp"
  | .X86I_NOT => usual2 "not"
  | .X86I_ADD => usual2 "add"
  | .X86I_ADDSS => usual2 "addss"
  | .X86I_ADDSD => usual2 "addsd"
  | .X86I_SUB => usual2 "sub"
  | .X86I_SUBSS => usual2 "subss"
  | .X86I_SUBSD => usual2 "subsd"
  | .X86I_MUL => usual1 "mul"
  | .X86I_IMUL => usual2 "imul"
  | .X86I_MULSS => usual2 "mulss"
  | .X86I_MULSD => usual2 "mulsd"
  | .X86I_DIV => usual1 "div"
  | .X86I_IDIV => usual1 "idiv"
  | .X86I_DIVSS => usual2 "divss"
  | .X86I_DIVSD => usual2 "divsd"
  | .X86I_XOR => usual2 "xor"
  | .X86I_XORPS => usual2 "xorps"
  | .X86I_XORPD => usual2 "xorpd"
  | .X86I_CVTSD2SS => usual2 "cvtsd2ss"
  | .X86I_CVTSS2SD => usual2 "cvtss2sd"
  | .X86I_CVTSI2SS => usual2 "cvtsi2ss"
  | .X86I_CVTSI2SD => usual2 "cvtsi2sd"
  | .X86I_CVTTSS2SI => usual2 "cvttss2si"
  | .X86I_CVTTSD2SI => usual2 "cvttsd2si"
  | .X86I_COMISS => usual2 "comiss"
  | .X86I_COMISD => usual2 "comisd"
  | .X86I_UCOMISS => usual2 "ucomiss"
  | .X86I_UCOMISD => usual2 "ucomisd"
  | .X86I_TEST => usual2 "test"
  | .X86I_PTEST => usual2 "ptest"
  | .X86I_REP_STOSB => ["    rep stosb", "\n"]
  | .X86I_SHL => shiftform "shl"
  | .X86I_SHR => shiftform "shr"
  | .X86I_SAR => shiftform "sar"
  | .X86I_ROR => shiftform "ror"
  | .X86I_SKIP => []
  | _ => ["\n"]

/-- The full text `x86_write_insn` prints for one instruction. -/
def x86_write_insn_text (insn : x86_insn) : String :=
  String.join (x86_write_insn_lines insn)

/-- Spec-side table for the amended suffixing claim: for every opcode whose
printed form begins with a mnemonic, the mnemonic and whether a size suffix
is appended to it.  Opcodes that print no mnemonic (labels, `X86I_SKIP`, and
the opcodes the printer has no arm for) map to `none`. -/
def printed_head : x86_insn_type → Option (String × Bool)
  | .X86I_PUSH => some ("push", true)
  | .X86I_NEG => some ("neg", true)
  | .X86I_MOV => some ("mov", true)
  | .X86I_LEA => some ("lea", true)
  | .X86I_AND => some ("and", true)
  | .X86I_OR => some ("or", true)
  | .X86I_CMP => some ("cmp", true)
  | .X86I_NOT => some ("not", true)
  | .X86I_ADD => some ("add", true)
  | .X86I_SUB => some ("sub", true)
  | .X86I_MUL => some ("mul", true)
  | .X86I_IMUL => some ("imul", true)
  | .X86I_DIV => some ("div", true)
  | .X86I_IDIV => some ("idiv", true)
  | .X86I_XOR => some ("xor", true)
  | .X86I_SHL => some ("shl", true)
  | .X86I_SHR => some ("shr", true)
  | .X86I_SAR => some ("sar", true)
  | .X86I_ROR => some ("ror", true)
  | .X86I_TEST => some ("test", true)
  | .X86I_CVTSI2SS => some ("cvtsi2ss", true)
  | .X86I_CVTSI2SD => some ("cvtsi2sd", true)
  | .X86I_CVTTSS2SI => some ("cvttss2si", true)
  | .X86I_CVTTSD2SI => some ("cvttsd2si", true)
  | .X86I_MOVSS => some ("movss", false)
  | .X86I_MOVSD => some ("movsd", false)
  | .X86I_MOVSX => some ("movsx", false)
  | .X86I_MOVZX => some ("movzx", false)
  | .X86I_ADDSS => some ("addss", false)
  | .X86I_ADDSD => some ("addsd", false)
  | .X86I_SUBSS => some ("subss", false)
  | .X86I_SUBSD => some ("subsd", false)
  | .X86I_MULSS => some ("mulss", false)
  | .X86I_MULSD => some ("mulsd", false)
  | .X86I_DIVSS => some ("divss", false)
  | .X86I_DIVSD => some ("divsd", false)
  | .X86I_XORPS => some ("xorps", false)
  | .X86I_XORPD => some ("xorpd", false)
  | .X86I_CVTSD2SS => some ("cvtsd2ss", false)
  | .X86I_CVTSS2SD => some ("cvtss2sd", false)
  | .X86I_COMISS => some ("comiss", false)
  | .X86I_COMISD => some ("comisd", false)
  | .X86I_UCOMISS => some ("ucomiss", false)
  | .X86I_UCOMISD => some ("ucomisd", false)
  | .X86I_PTEST => some ("ptest", false)
  | .X86I_CALL => some ("call", false)
  | .X86I_JMP => some ("jmp", false)
  | .X86I_JE => some ("je", false)
  | .X86I_JNE => some ("jne", false)
  | .X86I_JNB => some ("jnb", false)
  | .X86I_JS => some ("js", false)
  | .X86I_SETE => some ("sete", false)
  | .X86I_SETNE => some ("setne", false)
  | .X86I_SETLE => some ("setle", false)
  | .X86I_SETL => some ("setl", false)
  | .X86I_SETGE => some ("setge", false)
  | .X86I_SETG => some ("setg", false)
  | .X86I_SETA => some ("seta", false)
  | .X86I_SETNB => some ("setnb", false)
  | .X86I_SETP => some ("setp", false)
  | .X86I_SETNP => some ("setnp", false)
  | .X86I_LEAVE => some ("leave", false)
  | .X86I_RET => some ("ret", false)
  | .X86I_STC => some ("stc", false)
  | .X86I_NOP => some ("nop", false)
  | .X86I_SYSCALL => some ("syscall", false)
  | .X86I_REP_STOSB => some ("rep stosb", false)
  | _ => none

/-- A concrete `lea` instruction as `x86_generate_load_addr` creates it:
always of size `X86SZ_QWORD`. -/
def c4_lea_example : x86_insn :=
  { type := .X86I_LEA, size := .X86SZ_QWORD,
    op1 := some { val := .X86OP_DEREF_REGISTER (-8) .X86R_RBP },
    op2 := some { val := .X86OP_REGISTER .X86R_RAX } }

/-- A concrete `add` instruction of dword size, used to witness the amended
suffixing theorem. -/
def c4_add_example : x86_insn :=
  { type := .X86I_ADD, size := .X86SZ_DWORD,
    op1 := some { val := .X86OP_REGISTER .X86R_RCX },
    op2 := some { val := .X86OP_REGISTER .X86R_RAX } }

/-! ## Theorems for claims C1, C2, C4 -/

/-- C1: the prologue/epilogue push and pop sets are claimed to equal the set
of nonvolatile registers some instruction writes.  Evaluating the code at the
failing inputs: the routine `movq %rax, %rbx` writes `%rbx` (operand 2) but
the scan records nothing (it switches on the register of operand 1, `%rax`),
so nothing is pushed; conversely `movq %rbx, %rax` writes only `%rax` yet the
scan records `%rbx`. -/
theorem nonvolatile_scan_reads_op1_register :
    x86_find_used_nonvolatiles [c1_mov_rax_rbx] = 0 ∧
    routine_written_nonvolatiles [c1_mov_rax_rbx] = USED_NONVOLATILES_RBX ∧
    x86_write_routine_push_nonvolatiles
      (x86_find_used_nonvolatiles [c1_mov_rax_rbx]) = [] ∧
    x86_find_used_nonvolatiles [c1_mov_rbx_rax] = USED_NONVOLATILES_RBX ∧
    routine_written_nonvolatiles [c1_mov_rbx_rax] = 0 := by
  decide

/-- C2: the varargs register-save block is claimed to store each of the six
integer argument registers into its own distinct 8-byte slot.  Evaluating the
emitted stores: `%rcx` is stored at -16(%rbp), the slot just written with
`%r8`, and `%rdx` is stored twice (at -24 and -32), so the store offsets of
the integer registers are not distinct.  The 176-byte reservation itself does
happen. -/
theorem varargs_setup_slots_collide :
    (varargs_gp_stores.map (fun s => (s.reg, s.offset))) =
      [("r9", -8), ("r8", -16), ("rcx", -16), ("rdx", -24), ("rdx", -32),
       ("rsi", -40), ("rdi", -48)] ∧
    ¬ (varargs_gp_stores.map (fun s => s.offset)).Nodup ∧
    (varargs_gp_stores.filter (fun s => s.reg == "rdx")).length = 2 ∧
    x86_generate_routine_initial_stackalloc true = -176 := by
  decide

/-- C4 (amended): every printed instruction whose output begins with a
mnemonic starts with four spaces, the mnemonic, then a size-suffix character
chosen from the instruction operand size exactly for the mnemonics of
`printed_head` marked suffixed (the integer arithmetic/logic/move group
together with lea, cmp, test and the SSE-integer conversions
cvtsi2ss/cvtsi2sd/cvttss2si/cvttsd2si), and no suffix for the rest (the SSE
arithmetic/move/compare mnemonics, ptest, movsx, movzx, jumps, call, setcc,
leave, ret, nop, stc, rep stosb, syscall). -/
theorem x86_write_insn_suffixing (insn : x86_insn) (name : String)
    (sfxd : Bool) (h : printed_head insn.type = some (name, sfxd)) :
    ∃ sep rest, x86_write_insn_lines insn =
      ("    " ++ name ++
        (if sfxd then String.singleton (x86_operand_size_character insn.size)
         else "") ++ sep) :: rest ∧ (sep = " " ∨ sep = "") := by
  obtain ⟨t, size, op1, op2, op3⟩ := insn
  cases t <;>
    simp only [printed_head, Option.some.injEq, Prod.mk.injEq,
      reduceCtorEq] at h <;>
    obtain ⟨rfl, rfl⟩ := h <;>
    first
      | exact ⟨" ", _, rfl, Or.inl rfl⟩
      | exact ⟨"", _, rfl, Or.inr rfl⟩

/-- Witness for the suffixing theorem at the concrete dword `add`. -/
theorem x86_write_insn_suffixing_witness :
    ∃ sep rest, x86_write_insn_lines c4_add_example =
      ("    " ++ "add" ++
        (if true then
          String.singleton (x86_operand_size_character c4_add_example.size)
         else "") ++ sep) :: rest ∧ (sep = " " ∨ sep = "") :=
  x86_write_insn_suffixing c4_add_example "add" true rfl

/-- C4 counterexample: the claim says `lea` is emitted with no size suffix,
but the printed form of the `lea` instruction built by the backend begins
with "    leaq ", not with the unsuffixed mnemonic. -/
theorem lea_is_printed_with_suffix :
    (x86_write_insn_lines c4_lea_example).head? = some "    leaq " ∧
    ¬ ((x86_write_insn_lines c4_lea_example).head? = some "    lea " ∨
       (x86_write_insn_lines c4_lea_example).head? = some "    lea") := by
  decide

/-! ## C type model (claims C3, C8, C9)

The `c_type_t` struct of the compiler is a tagged value; the type-system
helpers (`type.c`) are not under src/, so the predicates below are modelled
from the specification (section 3 and 4.A) and are shared by both sides of
every theorem that uses them. -/

/-- Type classes (`c_type_class_t`). -/
inductive c_type_class where
  | CTC_ERROR | CTC_VOID | CTC_BOOL
  | CTC_CHAR | CTC_SIGNED_CHAR | CTC_UNSIGNED_CHAR
  | CTC_SHORT_INT | CTC_UNSIGNED_SHORT_INT | CTC_INT | CTC_UNSIGNED_INT
  | CTC_LONG_INT | CTC_UNSIGNED_LONG_INT
  | CTC_LONG_LONG_INT | CTC_UNSIGNED_LONG_LONG_INT
  | CTC_FLOAT | CTC_DOUBLE | CTC_LONG_DOUBLE
  | CTC_ENUMERATED | CTC_POINTER | CTC_ARRAY
  | CTC_STRUCTURE | CTC_UNION | CTC_FUNCTION | CTC_LABEL
deriving DecidableEq, Repr

/-- A C type: class, qualifier bitmask, and the class-dependent payload.
Array length `none` is the unspecified length (-1 in the C code); a
struct/union carries its member-name and member-type vectors, a tag handle,
and a completeness flag. -/
inductive c_type where
  | basic (cls : c_type_class) (quals : Nat)
  | ptr (quals : Nat) (derived_from : c_type)
  | arr (quals : Nat) (derived_from : c_type) (length : Option Int)
  | su (is_union : Bool) (quals : Nat) (tag : Nat)
      (member_names : List String) (member_types : List c_type)
      (is_complete_su : Bool)
  | fn (quals : Nat) (derived_from : c_type)

/-- The class of a type. -/
def c_type.cls : c_type → c_type_class
  | .basic c _ => c
  | .ptr _ _ => .CTC_POINTER
  | .arr _ _ _ => .CTC_ARRAY
  | .su u _ _ _ _ _ => if u then .CTC_UNION else .CTC_STRUCTURE
  | .fn _ _ => .CTC_FUNCTION

/-- The qualifier bitmask of a type. -/
def c_type.quals : c_type → Nat
  | .basic _ q => q
  | .ptr q _ => q
  | .arr q _ _ => q
  | .su _ q _ _ _ _ => q
  | .fn q _ => q

/-- The `derived_from` field: pointee, array element or return type; the C
code only reads it under a class guard, so the fallback arm is never used by
the ported functions. -/
def c_type.derived_from : c_type → c_type
  | .ptr _ t => t
  | .arr _ t _ => t
  | .fn _ t => t
  | t => t

/-- The same type with its top-level qualifiers cleared. -/
def c_type.unqualified : c_type → c_type
  | .basic c _ => .basic c 0
  | .ptr _ t => .ptr 0 t
  | .arr _ t l => .arr 0 t l
  | .su u _ g ns ts c => .su u 0 g ns ts c
  | .fn _ t => .fn 0 t

/-- Structural equality standing for the pointer-equality tests of the C code
(`cot == ct`); aggregates are identified by tag, and in a translation unit a
type is never structurally equal to one of its own strict subterms. -/
def c_type.beq : c_type → c_type → Bool
  | .basic c q, .basic c' q' => c == c' && q == q'
  | .ptr q t, .ptr q' t' => q == q' && c_type.beq t t'
  | .arr q t l, .arr q' t' l' => q == q' && l == l' && c_type.beq t t'
  | .su u q g _ _ c, .su u' q' g' _ _ c' =>
      u == u' && q == q' && g == g' && c == c'
  | .fn q t, .fn q' t' => q == q' && c_type.beq t t'
  | _, _ => false

instance : BEq c_type := ⟨c_type.beq⟩

/-- Modelled from the spec: `type_get_array_length`, -1 when the length is
unspecified or the type is not an array. -/
def type_get_array_length : c_type → Int
  | .arr _ _ (some n) => n
  | _ => -1

/-- Modelled from the spec: `type_is_integer` (the integer classes and
enumerations; `Bool` is an unsigned integer type). -/
def type_is_integer (t : c_type) : Bool :=
  match t.cls with
  | .CTC_BOOL | .CTC_CHAR | .CTC_SIGNED_CHAR | .CTC_UNSIGNED_CHAR
  | .CTC_SHORT_INT | .CTC_UNSIGNED_SHORT_INT | .CTC_INT | .CTC_UNSIGNED_INT
  | .CTC_LONG_INT | .CTC_UNSIGNED_LONG_INT
  | .CTC_LONG_LONG_INT | .CTC_UNSIGNED_LONG_LONG_INT
  | .CTC_ENUMERATED => true
  | _ => false

/-- Modelled from the spec: `type_is_arithmetic` (integer or floating). -/
def type_is_arithmetic (t : c_type) : Bool :=
  type_is_integer t ||
    match t.cls with
    | .CTC_FLOAT | .CTC_DOUBLE | .CTC_LONG_DOUBLE => true
    | _ => false

/-- Modelled from the spec: `type_is_scalar` (arithmetic or pointer). -/
def type_is_scalar (t : c_type) : Bool :=
  type_is_arithmetic t || t.cls == .CTC_POINTER

/-- Modelled from the spec: `type_is_character` (the three char types). -/
def type_is_character (t : c_type) : Bool :=
  match t.cls with
  | .CTC_CHAR | .CTC_SIGNED_CHAR | .CTC_UNSIGNED_CHAR => true
  | _ => false

/-- Modelled from the spec: `type_is_complete`.  `void`, error, label types
and arrays of unspecified length are incomplete; a struct/union reports its
completeness flag; function types are treated as complete here so that a
pointee that is a function is not classified as incomplete. -/
def type_is_complete (t : c_type) : Bool :=
  match t with
  | .basic .CTC_VOID _ => false
  | .basic .CTC_ERROR _ => false
  | .basic .CTC_LABEL _ => false
  | .basic _ _ => true
  | .ptr _ _ => true
  | .arr _ _ l => l.isSome
  | .su _ _ _ _ _ c => c
  | .fn _ _ => true

/-- Modelled from the spec: `type_is_object_type` — a complete type that is
not a function, void, label or error type. -/
def type_is_object_type (t : c_type) : Bool :=
  (match t.cls with
   | .CTC_FUNCTION | .CTC_VOID | .CTC_LABEL | .CTC_ERROR => false
   | _ => true) && type_is_complete t

/-- Modelled from the spec: `type_is_vla` — variable-length arrays are not
supported by the compiler, so no modelled type is one. -/
def type_is_vla (_ : c_type) : Bool := false

/-- Modelled from the spec: qualifier-sensitive compatibility per ISO 6.2.7
(reflexive, symmetric; pointers compare pointees, arrays compare element
types and lengths when both are specified, struct/union types are compatible
when they are the same tagged type, function types compare return types). -/
def type_is_compatible : c_type → c_type → Bool
  | .basic c q, .basic c' q' => c == c' && q == q'
  | .ptr q t, .ptr q' t' => q == q' && type_is_compatible t t'
  | .arr q t l, .arr q' t' l' =>
      q == q' && type_is_compatible t t' && (l.isNone || l'.isNone || l == l')
  | .su u q g _ _ _, .su u' q' g' _ _ _ => u == u' && q == q' && g == g'
  | .fn q t, .fn q' t' => q == q' && type_is_compatible t t'
  | _, _ => false

/-- Modelled from the spec: `type_is_compatible_ignore_qualifiers` —
compatibility of the unqualified (top-level) versions of the two types. -/
def type_is_compatible_ignore_qualifiers (t u : c_type) : Bool :=
  type_is_compatible t.unqualified u.unqualified

/-- `can_assign` (src/analyze.c:677), the if-else chain exactly as written;
the null-pointer-constant test on the right-hand-side expression
(`syntax_is_null_ptr_constant`) enters as the boolean
`rhs_is_null_ptr_constant`. -/
def can_assign (tlhs trhs : c_type) (rhs_is_null_ptr_constant : Bool) :
    Bool :=
  if type_is_arithmetic tlhs && type_is_arithmetic trhs then true
  else if (tlhs.cls == .CTC_STRUCTURE || tlhs.cls == .CTC_UNION) &&
      type_is_compatible_ignore_qualifiers tlhs trhs then true
  else if tlhs.cls == .CTC_POINTER && trhs.cls == .CTC_POINTER &&
      type_is_compatible_ignore_qualifiers tlhs.derived_from
        trhs.derived_from &&
      (tlhs.derived_from.quals &&& trhs.derived_from.quals) ==
        trhs.derived_from.quals then true
  else if tlhs.cls == .CTC_POINTER &&
      (type_is_object_type tlhs.derived_from ||
        !type_is_complete tlhs.derived_from) &&
      trhs.cls == .CTC_POINTER && trhs.derived_from.cls == .CTC_VOID &&
      (tlhs.derived_from.quals &&& trhs.derived_from.quals) ==
        trhs.derived_from.quals then true
  else if trhs.cls == .CTC_POINTER &&
      (type_is_object_type trhs.derived_from ||
        !type_is_complete trhs.derived_from) &&
      tlhs.cls == .CTC_POINTER && tlhs.derived_from.cls == .CTC_VOID &&
      (tlhs.derived_from.quals &&& trhs.derived_from.quals) ==
        trhs.derived_from.quals then true
  else if tlhs.cls == .CTC_POINTER && rhs_is_null_ptr_constant then true
  else if tlhs.cls == .CTC_BOOL && trhs.cls == .CTC_POINTER then true
  else false

/-- The six assignability conditions exactly as the specification states
them. -/
def spec_can_assign (tlhs trhs : c_type) (rhs_is_null_ptr_constant : Bool) :
    Prop :=
  (type_is_arithmetic tlhs = true ∧ type_is_arithmetic trhs = true) ∨
  ((tlhs.cls = .CTC_STRUCTURE ∨ tlhs.cls = .CTC_UNION) ∧
    type_is_compatible_ignore_qualifiers tlhs trhs = true) ∨
  (tlhs.cls = .CTC_POINTER ∧ trhs.cls = .CTC_POINTER ∧
    type_is_compatible_ignore_qualifiers tlhs.derived_from trhs.derived_from
      = true ∧
    (tlhs.derived_from.quals &&& trhs.derived_from.quals) =
      trhs.derived_from.quals) ∨
  ((tlhs.cls = .CTC_POINTER ∧
      (type_is_object_type tlhs.derived_from = true ∨
        type_is_complete tlhs.derived_from = false) ∧
      trhs.cls = .CTC_POINTER ∧ trhs.derived_from.cls = .CTC_VOID ∧
      (tlhs.derived_from.quals &&& trhs.derived_from.quals) =
        trhs.derived_from.quals) ∨
    (trhs.cls = .CTC_POINTER ∧
      (type_is_object_type trhs.derived_from = true ∨
        type_is_complete trhs.derived_from = false) ∧
      tlhs.cls = .CTC_POINTER ∧ tlhs.derived_from.cls = .CTC_VOID ∧
      (tlhs.derived_from.quals &&& trhs.derived_from.quals) =
        trhs.derived_from.quals)) ∨
  (tlhs.cls = .CTC_POINTER ∧ rhs_is_null_ptr_constant = true) ∨
  (tlhs.cls = .CTC_BOOL ∧ trhs.cls = .CTC_POINTER)

/-- C3: `can_assign` returns true exactly when one of the six conditions of
the specification holds, and false for every other pair of types. -/
theorem can_assign_iff_spec (tlhs trhs : c_type)
    (npc : Bool) :
    can_assign tlhs trhs npc = true ↔ spec_can_assign tlhs trhs npc := by
  have hite : ∀ c x : Bool, (if c then true else x) = (c || x) := by
    intro c x; cases c <;> simp
  rw [can_assign, hite, hite, hite, hite, hite, hite, hite]
  simp only [spec_can_assign, Bool.or_false, Bool.or_eq_true,
    Bool.and_eq_true, Bool.not_eq_true', beq_iff_eq, and_assoc, or_assoc]

/-! ## Sizes and alignment (modelled from the spec; used by the backend and
the initializer elaborator) -/

/-- Modelled from the spec: byte widths of the basic type classes on
x86-64 System V (`type_size` for non-derived types); -1 for types without a
size. -/
def basic_type_width (cls : c_type_class) : Int :=
  match cls with
  | .CTC_BOOL | .CTC_CHAR | .CTC_SIGNED_CHAR | .CTC_UNSIGNED_CHAR => 1
  | .CTC_SHORT_INT | .CTC_UNSIGNED_SHORT_INT => 2
  | .CTC_INT | .CTC_UNSIGNED_INT | .CTC_ENUMERATED | .CTC_FLOAT => 4
  | .CTC_LONG_INT | .CTC_UNSIGNED_LONG_INT
  | .CTC_LONG_LONG_INT | .CTC_UNSIGNED_LONG_LONG_INT | .CTC_DOUBLE => 8
  | .CTC_LONG_DOUBLE => 16
  | _ => -1

/-- Align `o` up to a multiple of `a` (the expression the elaborator uses:
`o + (a - o % a) % a`). -/
def align_up (o a : Int) : Int := o + (a - o % a) % a

mutual

/-- Modelled from the spec: `type_alignment`. -/
def type_alignment : c_type → Int
  | .basic cls _ => basic_type_width cls
  | .ptr _ _ => 8
  | .arr _ t _ => type_alignment t
  | .su _ _ _ _ ts _ => max_alignment ts
  | .fn _ _ => 1

/-- The largest member alignment (1 for an empty member list). -/
def max_alignment : List c_type → Int
  | [] => 1
  | t :: ts => max (type_alignment t) (max_alignment ts)

end

mutual

/-- Modelled from the spec: `type_size`; -1 for incomplete types. -/
def type_size : c_type → Int
  | .basic cls _ => basic_type_width cls
  | .ptr _ _ => 8
  | .arr _ t (some n) => n * type_size t
  | .arr _ _ none => -1
  | .su u _ _ _ ts c =>
      if c then
        if u then align_up (max_size ts) (max_alignment ts)
        else align_up (struct_fields_end ts 0) (max_alignment ts)
      else -1
  | .fn _ _ => -1

/-- End offset of a struct member sequence laid out at aligned offsets. -/
def struct_fields_end : List c_type → Int → Int
  | [], o => o
  | t :: ts, o => struct_fields_end ts (align_up o (type_alignment t) + type_size t)

/-- The largest member size (0 for an empty member list). -/
def max_size : List c_type → Int
  | [] => 0
  | t :: ts => max (type_size t) (max_size ts)

end

/-- Byte offsets of the members of a struct laid out at aligned offsets
(all zero for a union); this is the `soffset` that
`type_get_struct_union_member_info` reports. -/
def struct_member_offsets (is_union : Bool) : List c_type → Int → List Int
  | [], _ => []
  | t :: ts, o =>
      if is_union then 0 :: struct_member_offsets is_union ts 0
      else
        let o' := align_up o (type_alignment t)
        o' :: struct_member_offsets is_union ts (o' + type_size t)

/-- `c_type_to_x86_operand_size` (src/x86asm.c:395). -/
def c_type_to_x86_operand_size (ct : c_type) : x86_insn_size :=
  match type_size ct with
  | 1 => .X86SZ_BYTE
  | 2 => .X86SZ_WORD
  | 4 => .X86SZ_DWORD
  | 8 => .X86SZ_QWORD
  | _ => .X86SZ_QWORD

/-! ## Backend file state and the SSE conversion recipes (claims C5, C6) -/

/-- The fragment of AIR operands the conversion recipes receive after
localization: virtual registers, integer constants and labels, all of which
`air_operand_to_x86_operand` (src/x86asm.c:932) converts without touching the
routine state.  Symbol operands, whose conversion assigns stack offsets, do
not occur in these recipes and are outside the modelled fragment. -/
inductive air_insn_operand where
  | AOP_REGISTER (reg : regid)
  | AOP_INTEGER_CONSTANT (ic : Nat)
  | AOP_LABEL (disambiguator : Char) (id : Nat)
deriving DecidableEq, Repr

/-- `air_operand_to_x86_operand` on the register/constant/label fragment. -/
def air_operand_to_x86_operand : air_insn_operand → x86_operand
  | .AOP_REGISTER r => { val := .X86OP_REGISTER r }
  | .AOP_INTEGER_CONSTANT n => { val := .X86OP_IMMEDIATE n }
  | .AOP_LABEL d id =>
      { val := .X86OP_LABEL (".L" ++ String.singleton d ++ toString id) }

/-- One rodata object (`x86_asm_data_t`): label, alignment, bytes. -/
structure x86_asm_data where
  label : String
  alignment : Int
  data : List Nat
  readonly : Bool
deriving DecidableEq, Repr

/-- The per-file backend state the conversion recipes touch: the generated
label counter and the lazily created i64-limit rodata constants
(`x86_asm_file_t`).  The cached symbol is represented by a flag because its
name is fixed at creation. -/
structure x86_asm_file where
  next_constant_local_label : Nat := 0
  sse32_i64_limit_created : Bool := false
  sse64_i64_limit_created : Bool := false
  rodata : List x86_asm_data := []
deriving DecidableEq, Repr

/-- `x86_asm_file_create_next_label` (src/x86asm.c:173): ".LGEN" followed by
the incremented counter. -/
def x86_asm_file_create_next_label (f : x86_asm_file) :
    String × x86_asm_file :=
  (".LGEN" ++ toString (f.next_constant_local_label + 1),
   { f with next_constant_local_label := f.next_constant_local_label + 1 })

/-- Little-endian IEEE-754 single-precision bytes of 9223372036854775808.0
(2^63), bit pattern 0x5F000000: the value `x86_64_get_sse_i64_limit` stores
with `*((float*) data) = 9223372036854775808.0f`. -/
def sse32_i64_limit_bytes : List Nat := [0x00, 0x00, 0x00, 0x5F]

/-- Little-endian IEEE-754 double-precision bytes of 9223372036854775808.0,
bit pattern 0x43E0000000000000. -/
def sse64_i64_limit_bytes : List Nat := [0x00, 0x00, 0x00, 0x00, 0x00, 0x00, 0xE0, 0x43]

/-- `x86_64_get_sse_i64_limit` (src/x86asm.c:1793): return the limit symbol
for the class, creating the rodata constant 9223372036854775808.0 on first
use. -/
def x86_64_get_sse_i64_limit (cls : c_type_class) (f : x86_asm_file) :
    String × x86_asm_file :=
  let is_float := cls == .CTC_FLOAT
  if is_float then
    if f.sse32_i64_limit_created then ("__sse32_i64_limit", f)
    else
      ("__sse32_i64_limit",
       { f with
           sse32_i64_limit_created := true
           rodata := f.rodata ++
             [⟨"__sse32_i64_limit", 4, sse32_i64_limit_bytes, true⟩] })
  else
    if f.sse64_i64_limit_created then ("__sse64_i64_limit", f)
    else
      ("__sse64_i64_limit",
       { f with
           sse64_i64_limit_created := true
           rodata := f.rodata ++
             [⟨"__sse64_i64_limit", 8, sse64_i64_limit_bytes, true⟩] })

/-- `x86_generate_sse2u64` (src/x86asm.c:1863): lower a float/double to
unsigned 64-bit conversion; `opt` is the type of the source operand `op1`,
`op0` is the destination. -/
def x86_generate_sse2u64 (opt : c_type) (op0 op1 : air_insn_operand)
    (f : x86_asm_file) : List x86_insn × x86_asm_file :=
  let is_float := opt.cls == .CTC_FLOAT
  let (limit, f) := x86_64_get_sse_i64_limit opt.cls f
  let cmp : x86_insn :=
    { type := if is_float then .X86I_COMISS else .X86I_COMISD,
      size := c_type_to_x86_operand_size opt,
      op1 := some { val := .X86OP_LABEL_REF limit 0 },
      op2 := some (air_operand_to_x86_operand op1) }
  let (gte_label_name, f) := x86_asm_file_create_next_label f
  let (after_label_name, f) := x86_asm_file_create_next_label f
  let jnb : x86_insn :=
    { type := .X86I_JNB, op1 := some { val := .X86OP_LABEL gte_label_name } }
  let cvt1 : x86_insn :=
    { type := if is_float then .X86I_CVTTSS2SI else .X86I_CVTTSD2SI,
      size := .X86SZ_QWORD,
      op1 := some { air_operand_to_x86_operand op1 with
                      size := c_type_to_x86_operand_size opt },
      op2 := some (air_operand_to_x86_operand op0) }
  let jmp : x86_insn :=
    { type := .X86I_JMP, op1 := some { val := .X86OP_LABEL after_label_name } }
  let gte_label : x86_insn :=
    { type := .X86I_LABEL,
      op1 := some { val := .X86OP_LABEL gte_label_name } }
  let sub : x86_insn :=
    { type := if is_float then .X86I_SUBSS else .X86I_SUBSD,
      size := c_type_to_x86_operand_size opt,
      op1 := some { val := .X86OP_LABEL_REF limit 0 },
      op2 := some (air_operand_to_x86_operand op1) }
  let cvt2 : x86_insn :=
    { type := if is_float then .X86I_CVTTSS2SI else .X86I_CVTTSD2SI,
      size := .X86SZ_QWORD,
      op1 := some { air_operand_to_x86_operand op1 with
                      size := c_type_to_x86_operand_size opt },
      op2 := some (air_operand_to_x86_operand op0) }
  let shl : x86_insn :=
    { type := .X86I_SHL, size := .X86SZ_QWORD,
      op1 := some { val := .X86OP_IMMEDIATE 1 },
      op2 := some (air_operand_to_x86_operand op0) }
  let orb : x86_insn :=
    { type := .X86I_OR, size := .X86SZ_BYTE,
      op1 := some { val := .X86OP_IMMEDIATE 1 },
      op2 := some (air_operand_to_x86_operand op0) }
  let ror : x86_insn :=
    { type := .X86I_ROR, size := .X86SZ_QWORD,
      op1 := some { val := .X86OP_IMMEDIATE 1 },
      op2 := some (air_operand_to_x86_operand op0) }
  let after_label : x86_insn :=
    { type := .X86I_LABEL,
      op1 := some { val := .X86OP_LABEL after_label_name } }
  ([cmp, jnb, cvt1, jmp, gte_label, sub, cvt2, shl, orb, ror, after_label],
   f)

/-- `x86_generate_u642sse` (src/x86asm.c:1986): lower an unsigned 64-bit
integer to float/double conversion; `ct` is the destination SSE type, `opt`
the type of the integer source operand `op1`. -/
def x86_generate_u642sse (ct opt : c_type) (op0 op1 : air_insn_operand)
    (f : x86_asm_file) : List x86_insn × x86_asm_file :=
  let size := c_type_to_x86_operand_size ct
  let is_float := ct.cls == .CTC_FLOAT
  let (limit, f) := x86_64_get_sse_i64_limit ct.cls f
  let xor : x86_insn :=
    { type := if is_float then .X86I_XORPS else .X86I_XORPD, size := size,
      op1 := some (air_operand_to_x86_operand op0),
      op2 := some (air_operand_to_x86_operand op0) }
  let test : x86_insn :=
    { type := .X86I_TEST, size := .X86SZ_QWORD,
      op1 := some (air_operand_to_x86_operand op1),
      op2 := some (air_operand_to_x86_operand op1) }
  let (gte_label_name, f) := x86_asm_file_create_next_label f
  let (after_label_name, f) := x86_asm_file_create_next_label f
  let js : x86_insn :=
    { type := .X86I_JS, op1 := some { val := .X86OP_LABEL gte_label_name } }
  let cvt1 : x86_insn :=
    { type := if is_float then .X86I_CVTSI2SS else .X86I_CVTSI2SD,
      size := .X86SZ_QWORD,
      op1 := some (air_operand_to_x86_operand op1),
      op2 := some (air_operand_to_x86_operand op0) }
  let jmp : x86_insn :=
    { type := .X86I_JMP, op1 := some { val := .X86OP_LABEL after_label_name } }
  let gte_label : x86_insn :=
    { type := .X86I_LABEL,
      op1 := some { val := .X86OP_LABEL gte_label_name } }
  let shl : x86_insn :=
    { type := .X86I_SHL, size := .X86SZ_QWORD,
      op1 := some { val := .X86OP_IMMEDIATE 1 },
      op2 := some (air_operand_to_x86_operand op1) }
  let shr : x86_insn :=
    { type := .X86I_SHR, size := .X86SZ_QWORD,
      op1 := some { val := .X86OP_IMMEDIATE 1 },
      op2 := some (air_operand_to_x86_operand op1) }
  let cvt2 : x86_insn :=
    { type := if is_float then .X86I_CVTSI2SS else .X86I_CVTSI2SD,
      size := .X86SZ_QWORD,
      op1 := some (air_operand_to_x86_operand op1),
      op2 := some (air_operand_to_x86_operand op0) }
  let add : x86_insn :=
    { type := if is_float then .X86I_ADDSS else .X86I_ADDSD,
      size := c_type_to_x86_operand_size opt,
      op1 := some { val := .X86OP_LABEL_REF limit 0 },
      op2 := some (air_operand_to_x86_operand op0) }
  let after_label : x86_insn :=
    { type := .X86I_LABEL,
      op1 := some { val := .X86OP_LABEL after_label_name } }
  ([xor, test, js, cvt1, jmp, gte_label, shl, shr, cvt2, add, after_label],
   f)

/-- C5: for a float/double to unsigned-64 conversion the backend emits
exactly the branchful sequence of the claim: comiss/comisd of the operand
against the lazily created limit constant, jnb to the at-or-above branch, a
single cvttss2si/cvttsd2si into the 64-bit destination on the below branch,
and subtract/convert/shl 1/or 1 into the low byte/ror 1 on the at-or-above
branch; the limit constant enters rodata with the IEEE-754 encoding of
9223372036854775808.0. -/
theorem x86_generate_sse2u64_sequence (isf : Bool) (q : Nat)
    (op0 op1 : air_insn_operand) (f : x86_asm_file)
    (h32 : f.sse32_i64_limit_created = false)
    (h64 : f.sse64_i64_limit_created = false) :
    x86_generate_sse2u64 (.basic (if isf then .CTC_FLOAT else .CTC_DOUBLE) q)
        op0 op1 f =
      (let limit : String :=
        if isf then "__sse32_i64_limit" else "__sse64_i64_limit"
       let sz : x86_insn_size := if isf then .X86SZ_DWORD else .X86SZ_QWORD
       let gteL : String :=
        ".LGEN" ++ toString (f.next_constant_local_label + 1)
       let afterL : String :=
        ".LGEN" ++ toString (f.next_constant_local_label + 1 + 1)
       ([{ type := if isf then .X86I_COMISS else .X86I_COMISD, size := sz,
           op1 := some { val := .X86OP_LABEL_REF limit 0 },
           op2 := some (air_operand_to_x86_operand op1) },
         { type := .X86I_JNB, op1 := some { val := .X86OP_LABEL gteL } },
         { type := if isf then .X86I_CVTTSS2SI else .X86I_CVTTSD2SI,
           size := .X86SZ_QWORD,
           op1 := some { air_operand_to_x86_operand op1 with size := sz },
           op2 := some (air_operand_to_x86_operand op0) },
         { type := .X86I_JMP, op1 := some { val := .X86OP_LABEL afterL } },
         { type := .X86I_LABEL, op1 := some { val := .X86OP_LABEL gteL } },
         { type := if isf then .X86I_SUBSS else .X86I_SUBSD, size := sz,
           op1 := some { val := .X86OP_LABEL_REF limit 0 },
           op2 := some (air_operand_to_x86_operand op1) },
         { type := if isf then .X86I_CVTTSS2SI else .X86I_CVTTSD2SI,
           size := .X86SZ_QWORD,
           op1 := some { air_operand_to_x86_operand op1 with size := sz },
           op2 := some (air_operand_to_x86_operand op0) },
         { type := .X86I_SHL, size := .X86SZ_QWORD,
           op1 := some { val := .X86OP_IMMEDIATE 1 },
           op2 := some (air_operand_to_x86_operand op0) },
         { type := .X86I_OR, size := .X86SZ_BYTE,
           op1 := some { val := .X86OP_IMMEDIATE 1 },
           op2 := some (air_operand_to_x86_operand op0) },
         { type := .X86I_ROR, size := .X86SZ_QWORD,
           op1 := some { val := .X86OP_IMMEDIATE 1 },
           op2 := some (air_operand_to_x86_operand op0) },
         { type := .X86I_LABEL, op1 := some { val := .X86OP_LABEL afterL } }],
        { f with
            next_constant_local_label := f.next_constant_local_label + 1 + 1
            sse32_i64_limit_created := isf
            sse64_i64_limit_created := !isf
            rodata := f.rodata ++
              [if isf then ⟨"__sse32_i64_limit", 4, sse32_i64_limit_bytes, true⟩
               else ⟨"__sse64_i64_limit", 8, sse64_i64_limit_bytes, true⟩] })) := by
  cases isf <;>
    simp [x86_generate_sse2u64, x86_64_get_sse_i64_limit,
      x86_asm_file_create_next_label, h32, h64, c_type_to_x86_operand_size,
      type_size, basic_type_width, c_type.cls]

/-- Witness: the sequence theorem applied at a concrete double-to-u64
conversion on registers with a fresh file state. -/
theorem x86_generate_sse2u64_sequence_witness :
    ((x86_generate_sse2u64
        (.basic (if false then .CTC_FLOAT else .CTC_DOUBLE) 0)
        (.AOP_REGISTER .X86R_RAX) (.AOP_REGISTER .X86R_XMM0) {}).1).map
      (fun i => i.type) =
      [.X86I_COMISD, .X86I_JNB, .X86I_CVTTSD2SI, .X86I_JMP, .X86I_LABEL,
       .X86I_SUBSD, .X86I_CVTTSD2SI, .X86I_SHL, .X86I_OR, .X86I_ROR,
       .X86I_LABEL] := by
  rw [x86_generate_sse2u64_sequence false 0 (.AOP_REGISTER .X86R_RAX)
    (.AOP_REGISTER .X86R_XMM0) {} rfl rfl]
  rfl

/-- C6 (amended): for an unsigned-64 to float/double conversion the backend
clears the destination with xorps/xorpd, tests the source and branches with
js on its sign bit; the sign-clear branch is a single cvtsi2ss/cvtsi2sd; the
sign-set branch shifts the integer left by 1 and then logically right by 1
(clearing the sign bit), converts, and adds the rodata constant
9223372036854775808.0 to the destination. -/
theorem x86_generate_u642sse_sequence (isf : Bool) (q : Nat) (opt : c_type)
    (op0 op1 : air_insn_operand) (f : x86_asm_file)
    (h32 : f.sse32_i64_limit_created = false)
    (h64 : f.sse64_i64_limit_created = false) :
    x86_generate_u642sse (.basic (if isf then .CTC_FLOAT else .CTC_DOUBLE) q)
        opt op0 op1 f =
      (let limit : String :=
        if isf then "__sse32_i64_limit" else "__sse64_i64_limit"
       let sz : x86_insn_size := if isf then .X86SZ_DWORD else .X86SZ_QWORD
       let gteL : String :=
        ".LGEN" ++ toString (f.next_constant_local_label + 1)
       let afterL : String :=
        ".LGEN" ++ toString (f.next_constant_local_label + 1 + 1)
       ([{ type := if isf then .X86I_XORPS else .X86I_XORPD, size := sz,
           op1 := some (air_operand_to_x86_operand op0),
           op2 := some (air_operand_to_x86_operand op0) },
         { type := .X86I_TEST, size := .X86SZ_QWORD,
           op1 := some (air_operand_to_x86_operand op1),
           op2 := some (air_operand_to_x86_operand op1) },
         { type := .X86I_JS, op1 := some { val := .X86OP_LABEL gteL } },
         { type := if isf then .X86I_CVTSI2SS else .X86I_CVTSI2SD,
           size := .X86SZ_QWORD,
           op1 := some (air_operand_to_x86_operand op1),
           op2 := some (air_operand_to_x86_operand op0) },
         { type := .X86I_JMP, op1 := some { val := .X86OP_LABEL afterL } },
         { type := .X86I_LABEL, op1 := some { val := .X86OP_LABEL gteL } },
         { type := .X86I_SHL, size := .X86SZ_QWORD,
           op1 := some { val := .X86OP_IMMEDIATE 1 },
           op2 := some (air_operand_to_x86_operand op1) },
         { type := .X86I_SHR, size := .X86SZ_QWORD,
           op1 := some { val := .X86OP_IMMEDIATE 1 },
           op2 := some (air_operand_to_x86_operand op1) },
         { type := if isf then .X86I_CVTSI2SS else .X86I_CVTSI2SD,
           size := .X86SZ_QWORD,
           op1 := some (air_operand_to_x86_operand op1),
           op2 := some (air_operand_to_x86_operand op0) },
         { type := if isf then .X86I_ADDSS else .X86I_ADDSD,
           size := c_type_to_x86_operand_size opt,
           op1 := some { val := .X86OP_LABEL_REF limit 0 },
           op2 := some (air_operand_to_x86_operand op0) },
         { type := .X86I_LABEL, op1 := some { val := .X86OP_LABEL afterL } }],
        { f with
            next_constant_local_label := f.next_constant_local_label + 1 + 1
            sse32_i64_limit_created := isf
            sse64_i64_limit_created := !isf
            rodata := f.rodata ++
              [if isf then ⟨"__sse32_i64_limit", 4, sse32_i64_limit_bytes, true⟩
               else ⟨"__sse64_i64_limit", 8, sse64_i64_limit_bytes, true⟩] })) := by
  cases isf <;>
    simp [x86_generate_u642sse, x86_64_get_sse_i64_limit,
      x86_asm_file_create_next_label, h32, h64, c_type_to_x86_operand_size,
      type_size, basic_type_width, c_type.cls]

/-- Witness: the u64-to-SSE sequence theorem applied at a concrete
u64-to-double conversion on registers with a fresh file state. -/
theorem x86_generate_u642sse_sequence_witness :
    ((x86_generate_u642sse
        (.basic (if false then .CTC_FLOAT else .CTC_DOUBLE) 0)
        (.basic .CTC_UNSIGNED_LONG_LONG_INT 0)
        (.AOP_REGISTER .X86R_XMM0) (.AOP_REGISTER .X86R_RAX) {}).1).map
      (fun i => i.type) =
      [.X86I_XORPD, .X86I_TEST, .X86I_JS, .X86I_CVTSI2SD, .X86I_JMP,
       .X86I_LABEL, .X86I_SHL, .X86I_SHR, .X86I_CVTSI2SD, .X86I_ADDSD,
       .X86I_LABEL] := by
  rw [x86_generate_u642sse_sequence false 0
    (.basic .CTC_UNSIGNED_LONG_LONG_INT 0) (.AOP_REGISTER .X86R_XMM0)
    (.AOP_REGISTER .X86R_RAX) {} rfl rfl]
  rfl

/-- C6 counterexample: for a concrete u64-to-double conversion, the at-or-
above branch of the emitted sequence contains a shl by 1 followed by a shr
by 1, so the emitted opcode sequence is not the claimed one, which has only
a single right shift before the convert-and-add. -/
theorem u642sse_shifts_left_then_right :
    ((x86_generate_u642sse (.basic .CTC_DOUBLE 0)
        (.basic .CTC_UNSIGNED_LONG_LONG_INT 0)
        (.AOP_REGISTER .X86R_XMM0) (.AOP_REGISTER .X86R_RAX) {}).1).map
      (fun i => i.type) =
      [.X86I_XORPD, .X86I_TEST, .X86I_JS, .X86I_CVTSI2SD, .X86I_JMP,
       .X86I_LABEL, .X86I_SHL, .X86I_SHR, .X86I_CVTSI2SD, .X86I_ADDSD,
       .X86I_LABEL] ∧
    ¬ ((x86_generate_u642sse (.basic .CTC_DOUBLE 0)
        (.basic .CTC_UNSIGNED_LONG_LONG_INT 0)
        (.AOP_REGISTER .X86R_XMM0) (.AOP_REGISTER .X86R_RAX) {}).1).map
      (fun i => i.type) =
      [.X86I_XORPD, .X86I_TEST, .X86I_JS, .X86I_CVTSI2SD, .X86I_JMP,
       .X86I_LABEL, .X86I_SHR, .X86I_CVTSI2SD, .X86I_ADDSD,
       .X86I_LABEL] := by
  decide

/-! ## Switch-statement case checking (claim C7) -/

/-- Modelled from the spec: `constexpr_convert` to the promoted type of the
controlling expression followed by `constexpr_as_u64` wraps the case value
into the promoted width `w`. -/
def convert_case_value (w : Nat) (v : Int) : Nat :=
  (v % ((2 : Int) ^ w)).toNat

/-- The per-switch state `analyze_switch_statement_after` builds:
`swstmt_cases` and `swstmt_default` of the switch node, plus the diagnostics
the nested traversal appends to the shared error list, split by kind. -/
structure swstmt_state where
  swstmt_cases : List Nat := []
  swstmt_default : Bool := false
  dup_case_errors : Nat := 0
  multiple_default_errors : Nat := 0
deriving DecidableEq, Repr

/-- Statements as far as the switch-body traversal observes them: case
labels (with the already folded constant), default labels, named labels
(nonzero `lstmt_id`, skipped by the handler), sequencing, and nested switch
statements. -/
inductive sw_stmt where
  | sskip
  | scase (v : Int) (body : sw_stmt)
  | sdefault (body : sw_stmt)
  | snamed (body : sw_stmt)
  | sseq (a b : sw_stmt)
  | sswitch (body : sw_stmt)
deriving DecidableEq, Repr

/-- The case-label arm of `swbody_labeled_statement_after`
(src/analyze.c:2441): one diagnostic per already recorded case with the same
converted value, then record the value. -/
def swbody_case_after (w : Nat) (v : Int) (st : swstmt_state) :
    swstmt_state :=
  let value := convert_case_value w v
  { st with
      dup_case_errors := st.dup_case_errors +
        (st.swstmt_cases.filter (fun c => c == value)).length
      swstmt_cases := st.swstmt_cases ++ [value] }

/-- The default-label arm of `swbody_labeled_statement_after`
(src/analyze.c:2469): a diagnostic when a default was already seen, else
record it. -/
def swbody_default_after (st : swstmt_state) : swstmt_state :=
  if st.swstmt_default then
    { st with multiple_default_errors := st.multiple_default_errors + 1 }
  else { st with swstmt_default := true }

/-- The nested traversal of the switch body (`traverse` with
`swbody_labeled_statement_after` as the after-handler, src/analyze.c:2489):
post-order over the subtree; `inner` records whether a nested switch lies
between the node and the root switch, in which case
`syntax_get_enclosing(syn, SC_SWITCH_STATEMENT) != swstmt` makes the handler
return without acting. -/
def swbody_traverse_from (w : Nat) (inner : Bool) :
    sw_stmt → swstmt_state → swstmt_state
  | .sskip, st => st
  | .sseq a b, st =>
      swbody_traverse_from w inner b (swbody_traverse_from w inner a st)
  | .snamed body, st => swbody_traverse_from w inner body st
  | .sswitch body, st => swbody_traverse_from w true body st
  | .scase v body, st =>
      let st' := swbody_traverse_from w inner body st
      if inner then st' else swbody_case_after w v st'
  | .sdefault body, st =>
      let st' := swbody_traverse_from w inner body st
      if inner then st' else swbody_default_after st'

/-- `analyze_switch_statement_after` (src/analyze.c:2478) on an integer
controlling expression of promoted width `w`: run the bounded traversal on
the switch body starting from the fresh per-switch state. -/
def analyze_switch_statement_after (w : Nat) (body : sw_stmt) :
    swstmt_state :=
  swbody_traverse_from w false body {}

/-- Spec side: the converted values of the case labels of a switch body in
traversal order, excluding every label whose nearest enclosing switch is an
inner switch. -/
def outer_case_values (w : Nat) : sw_stmt → List Nat
  | .sskip => []
  | .sseq a b => outer_case_values w a ++ outer_case_values w b
  | .snamed body => outer_case_values w body
  | .sswitch _ => []
  | .scase v body => outer_case_values w body ++ [convert_case_value w v]
  | .sdefault body => outer_case_values w body

/-- Spec side: the number of default labels belonging to the switch itself
(not to an inner switch). -/
def outer_default_count : sw_stmt → Nat
  | .sskip => 0
  | .sseq a b => outer_default_count a + outer_default_count b
  | .snamed body => outer_default_count body
  | .sswitch _ => 0
  | .scase _ body => outer_default_count body
  | .sdefault body => outer_default_count body + 1

/-- Number of ordered duplicate pairs contributed by a value list appended
after an already recorded prefix. -/
def dups_against (prev : List Nat) : List Nat → Nat
  | [] => 0
  | c :: rest =>
      (prev.filter (fun x => x == c)).length + dups_against (prev ++ [c]) rest

/-- The count the claim predicts: the number of labels whose value already
occurred earlier in the list (each such duplicate producing one
diagnostic). -/
def dup_label_count_from (prev : List Nat) : List Nat → Nat
  | [] => 0
  | c :: rest =>
      (if prev.contains c then 1 else 0) + dup_label_count_from (prev ++ [c]) rest

def dup_label_count (l : List Nat) : Nat := dup_label_count_from [] l

/-- Default diagnostics added when `k` defaults are handled starting from
default-seen flag `h`. -/
def default_errors_added (h : Bool) (k : Nat) : Nat :=
  if h then k else k - 1

theorem swbody_traverse_inner (w : Nat) (s : sw_stmt) (st : swstmt_state) :
    swbody_traverse_from w true s st = st := by
  induction s generalizing st with
  | sskip => rfl
  | scase v body ih => simp [swbody_traverse_from, ih]
  | sdefault body ih => simp [swbody_traverse_from, ih]
  | snamed body ih => simp [swbody_traverse_from, ih]
  | sseq a b iha ihb => simp [swbody_traverse_from, iha, ihb]
  | sswitch body ih => simp [swbody_traverse_from, ih]

theorem dups_against_append (prev xs ys : List Nat) :
    dups_against prev (xs ++ ys) =
      dups_against prev xs + dups_against (prev ++ xs) ys := by
  induction xs generalizing prev with
  | nil => simp [dups_against]
  | cons c rest ih =>
      show dups_against prev (c :: (rest ++ ys)) = _
      simp only [dups_against, ih]
      have hassoc : (prev ++ [c]) ++ rest = prev ++ c :: rest := by
        rw [List.append_assoc]; rfl
      rw [hassoc]
      omega

theorem default_errors_added_add (h : Bool) (ka kb : Nat) :
    default_errors_added h ka +
      default_errors_added (h || decide (0 < ka)) kb =
    default_errors_added h (ka + kb) := by
  cases h <;> cases ka <;> simp [default_errors_added]

theorem swbody_default_after_eq (r : swstmt_state) :
    swbody_default_after r =
      { r with
          swstmt_default := true
          multiple_default_errors := r.multiple_default_errors +
            (if r.swstmt_default then 1 else 0) } := by
  cases hr : r.swstmt_default <;>
    simp [swbody_default_after, hr, swstmt_state.mk.injEq]

theorem swbody_traverse_outer (w : Nat) (s : sw_stmt) (st : swstmt_state) :
    swbody_traverse_from w false s st =
      { swstmt_cases := st.swstmt_cases ++ outer_case_values w s
        swstmt_default := st.swstmt_default || decide (0 < outer_default_count s)
        dup_case_errors := st.dup_case_errors +
          dups_against st.swstmt_cases (outer_case_values w s)
        multiple_default_errors := st.multiple_default_errors +
          default_errors_added st.swstmt_default (outer_default_count s) } := by
  induction s generalizing st with
  | sskip =>
      simp [swbody_traverse_from, outer_case_values, outer_default_count,
        dups_against, default_errors_added]
  | scase v body ih =>
      simp only [swbody_traverse_from, ih, outer_case_values,
        outer_default_count, Bool.false_eq_true, if_false]
      simp only [swbody_case_after, dups_against_append, dups_against,
        List.append_assoc]
      congr 1
      omega
  | sdefault body ih =>
      simp only [swbody_traverse_from, ih, outer_case_values,
        outer_default_count, Bool.false_eq_true, if_false,
        swbody_default_after_eq]
      congr 1
      · simp
      · cases hd : st.swstmt_default <;>
          by_cases h0 : 0 < outer_default_count body <;>
            simp [h0, default_errors_added] <;> omega
  | snamed body ih =>
      simp [swbody_traverse_from, ih, outer_case_values, outer_default_count]
  | sseq a b iha ihb =>
      simp only [swbody_traverse_from, iha, ihb, outer_case_values,
        outer_default_count]
      have hor : ∀ x y : Nat, ((0 < x ∨ 0 < y) ↔ 0 < x + y) := by
        intro x y; omega
      congr 1
      · rw [List.append_assoc]
      · rw [Bool.or_assoc, ← Bool.decide_or, decide_eq_decide.mpr (hor _ _)]
      · rw [dups_against_append]; omega
      · rw [← default_errors_added_add]; omega
  | sswitch body ih =>
      simp [swbody_traverse_from, swbody_traverse_inner, outer_case_values,
        outer_default_count, dups_against, default_errors_added]

/-- C7 (amended): for a switch over an integer controlling expression of
promoted width `w`, the traversal is bounded to the switch body and skips
every labeled statement whose nearest enclosing switch is an inner switch:
the recorded case set is exactly the converted values of the switch's own
case labels (never those of an inner switch), each case label produces one
diagnostic per previously recorded case with the same converted value, and
each default label beyond the first produces one diagnostic. -/
theorem analyze_switch_statement_after_characterization (w : Nat)
    (body : sw_stmt) :
    analyze_switch_statement_after w body =
      { swstmt_cases := outer_case_values w body
        swstmt_default := decide (0 < outer_default_count body)
        dup_case_errors := dups_against [] (outer_case_values w body)
        multiple_default_errors :=
          default_errors_added false (outer_default_count body) } := by
  have h := swbody_traverse_outer w body {}
  simpa [analyze_switch_statement_after] using h

/-- A switch body with the same case value three times:
`case 1: ; case 1: ; case 1: ;`. -/
def c7_body : sw_stmt :=
  .sseq (.scase 1 .sskip) (.sseq (.scase 1 .sskip) (.scase 1 .sskip))

/-- C7 counterexample: with three case labels of value 1, the analyzer
produces three duplicate-case diagnostics (the third label matches both
earlier recorded cases), while the claim that each duplicate case value
produces one diagnostic predicts two. -/
theorem duplicate_case_diagnostics_not_one_each :
    (analyze_switch_statement_after 32 c7_body).dup_case_errors = 3 ∧
    dup_label_count (analyze_switch_statement_after 32 c7_body).swstmt_cases
      = 2 ∧
    (analyze_switch_statement_after 32 c7_body).dup_case_errors ≠
      dup_label_count
        (analyze_switch_statement_after 32 c7_body).swstmt_cases := by
  decide

/-! ## Analyzer diagnostics (claim C10) -/

def MAX_ERROR_LEN : Nat := 512

/-- `analysis_error_t`: one diagnostic of the analyzer. -/
structure analysis_error where
  row : Nat
  col : Nat
  warning : Bool
  message : List Char
deriving DecidableEq, Repr

/-- `error_init` (src/analyze.c:20): the message buffer is allocated with
`malloc(MAX_ERROR_LEN)` and filled by `vsnprintf(err->message,
MAX_ERROR_LEN, fmt, args)`.  `formatted` stands for the full text the format
string and arguments would produce; vsnprintf (libc, modelled from its C99
contract) stores at most `MAX_ERROR_LEN - 1` of those characters plus the
terminating NUL and discards the rest. -/
def error_init (row col : Nat) (warning : Bool) (formatted : List Char) :
    analysis_error :=
  { row := row, col := col, warning := warning,
    message := formatted.take (MAX_ERROR_LEN - 1) }

/-- C10: every diagnostic message is formatted into the fixed 512-byte
buffer: the stored message is the first 511 characters of the formatted
text — at most 511 characters plus the NUL — and a longer text is silently
truncated (the message length is the minimum of 511 and the full length;
nothing is rejected or split into a second diagnostic). -/
theorem error_init_truncates (row col : Nat) (warning : Bool)
    (formatted : List Char) :
    (error_init row col warning formatted).message.length ≤
      MAX_ERROR_LEN - 1 ∧
    (error_init row col warning formatted).message =
      formatted.take (MAX_ERROR_LEN - 1) ∧
    (error_init row col warning formatted).message.length =
      min (MAX_ERROR_LEN - 1) formatted.length := by
  refine ⟨?_, rfl, ?_⟩ <;>
    simp [error_init, MAX_ERROR_LEN, List.length_take]

/-! ## String-literal initialization of a char array (claim C9) -/

/-- Modelled from the spec: the bytes of a regular string literal
(`strl_reg`), its characters followed by the terminating NUL. -/
def string_literal_bytes (s : String) : List Nat :=
  s.toList.map Char.toNat ++ [0]

/-- Modelled from the spec: the type the earlier stages give a regular
string literal (and so the type of the `__sl<n>` symbol that
`analyze_string_literal_after` copies it into): a char array whose length
counts the terminating NUL. -/
def string_literal_type (s : String) : c_type :=
  .arr 0 (.basic .CTC_CHAR 0) (some (s.toList.length + 1))

/-- `string_literal_initializes_array` (src/analyze.c:331) in the situation
of claim C9, where the initializer of the declarator is the string literal
itself (`ideclr == syn->parent` and a single initializer): the declared
symbol must have array type with a scalar element type. -/
def string_literal_initializes_array_direct (sy_type : c_type) : Bool :=
  sy_type.cls == .CTC_ARRAY && type_is_scalar sy_type.derived_from

/-- `analyze_init_declarator_after` (src/analyze.c:2573) followed by
`analyze_initializer_after` (src/analyze.c:1179) and
`analyze_static_initializer_after` (src/analyze.c:1100) for a symbol of
static storage duration initialized by the regular string literal `lit`
directly: check ISO 6.7.8 (3), finalize an unspecified array length to the
length of the literal, allocate the zeroed image with
`calloc(type_size(sy->type))`, and copy `type_size(strsy->type)` literal
bytes into it.  `none` marks the inputs on which the C code takes a
different path. -/
def analyze_init_declarator_static_string (sy_type : c_type) (lit : String) :
    Option (c_type × List Nat) :=
  if ¬ (type_is_object_type sy_type ||
        (sy_type.cls == .CTC_ARRAY && !type_is_vla sy_type)) then none
  else if ¬ string_literal_initializes_array_direct sy_type then none
  else
    let strsy_type := string_literal_type lit
    let final_type :=
      if string_literal_initializes_array_direct sy_type &&
          type_get_array_length sy_type == -1 then
        match sy_type with
        | .arr q t _ => .arr q t (some (type_get_array_length strsy_type))
        | t => t
      else sy_type
    let size := (type_size final_type).toNat
    let copied := (type_size strsy_type).toNat
    some (final_type,
      (string_literal_bytes lit).take copied ++
        (List.replicate size 0).drop copied)

/-- C9: a char array of unspecified length initialized by a string literal
gets its length finalized to the literal length including the NUL, and its
static image is exactly the literal bytes. -/
theorem char_array_unspecified_string_init (q eq : Nat) (lit : String) :
    analyze_init_declarator_static_string
        (.arr q (.basic .CTC_CHAR eq) none) lit =
      some (.arr q (.basic .CTC_CHAR eq) (some (lit.toList.length + 1)),
            string_literal_bytes lit) := by
  simp [analyze_init_declarator_static_string, type_is_object_type,
    type_is_complete, c_type.cls, string_literal_initializes_array_direct,
    c_type.derived_from, type_is_scalar, type_is_arithmetic, type_is_integer,
    type_is_vla, type_get_array_length, string_literal_type, type_size,
    basic_type_width]
  have h1 : (string_literal_bytes lit).length = lit.toList.length + 1 := by
    simp [string_literal_bytes]
  have h2 : lit.toList.length = lit.length := String.length_data lit
  omega

/-- The concrete scenario of the claim: `char s[] = "ab";` yields array
length 3 and image bytes 0x61 0x62 0x00. -/
theorem char_array_ab_example :
    analyze_init_declarator_static_string
        (.arr 0 (.basic .CTC_CHAR 0) none) "ab" =
      some (.arr 0 (.basic .CTC_CHAR 0) (some 3), [0x61, 0x62, 0x00]) := by
  rfl

/-! ## Initializer-list elaboration (claim C8)

A shallow embedding of `add_initializer_list_semantics` (src/analyze.c:96)
and the initializer-list arm of `analyze_static_initializer_after`
(src/analyze.c:1166).  The modelled initializer fragment has scalar
expressions in scalar positions and nested brace lists in aggregate
positions; the string-literal and brace-elision shortcut branches
(src/analyze.c:224-254 and the string arms of the descent loop), which
require string-literal nodes, cannot fire on this fragment and are omitted.
Designator index expressions enter already folded to integers
(`constexpr_evaluate_integer` lives outside src/).  Where the C code would
dereference a null pointer (an out-of-range member index on malformed
input), the model aborts the elaboration instead. -/

/-- One designator of a designation (`SC_IDENTIFIER` member designators and
array index designators with the folded constant). -/
inductive desigr where
  | member (name : String)
  | index (value : Int)
deriving DecidableEq, Repr

/-- An initializer: a scalar assignment expression or a brace-enclosed list,
each list entry carrying its optional designation. -/
inductive init_item where
  | expr
  | ilist (items : List (Option (List desigr) × init_item))

/-- The decoration the elaborator writes onto an initializer node:
`initializer_offset` (`none` when the elaborator never assigned one — the C
node then still holds the `calloc` default 0) and, for scalar leaves,
`initializer_ctype`. -/
inductive ann_init where
  | expr (initializer_offset : Option Int) (initializer_ctype : Option c_type)
  | ilist (initializer_offset : Option Int) (items : List ann_init)

/-- The recorded offset of an annotated initializer node. -/
def ann_init.offset_top : ann_init → Option Int
  | .expr o _ => o
  | .ilist o _ => o

/-- Member names of a struct/union type (empty for the other classes). -/
def c_type.member_names_of : c_type → List String
  | .su _ _ _ ns _ _ => ns
  | _ => []

/-- Member types of a struct/union type (empty for the other classes). -/
def c_type.member_types_of : c_type → List c_type
  | .su _ _ _ _ ts _ => ts
  | _ => []

/-- `get_aggregate_type_element_count` (src/analyze.c:84). -/
def get_aggregate_type_element_count : Option c_type → Int
  | none => -1
  | some ct =>
      if ct.cls == .CTC_UNION then 1
      else if ct.cls == .CTC_STRUCTURE then ct.member_types_of.length
      else if ct.cls == .CTC_ARRAY then type_get_array_length ct
      else 0

/-- The elaboration state of the loop of `add_initializer_list_semantics`:
the container-type stack, the element-index stack (list heads are the stack
tops, matching `vector_peek`), the running offset and the running maximum
`ml` for an outermost container of unspecified length. -/
structure elab_state where
  cot_stack : List c_type
  coei_stack : List Int
  offset : Int
  ml : Int

/-- The designation arm (src/analyze.c:116-187): reset the stacks and the
offset, then walk the designators from the outermost object; `none` is the
diagnose-and-return outcome.  Returns the rebuilt stacks and offset. -/
def apply_designators_go : c_type → List desigr → List c_type → List Int →
    Int → Option (List c_type × List Int × Int)
  | _, [], cots, coeis, offset => some (cots, coeis, offset)
  | nav, .member name :: rest, cots, coeis, offset =>
      if ¬ (nav.cls == .CTC_STRUCTURE || nav.cls == .CTC_UNION) then none
      else
        match nav.member_names_of.findIdx? (fun n => n == name) with
        | none => none
        | some midx =>
            match nav.member_types_of.get? midx with
            | none => none
            | some mt =>
                let soffset := (struct_member_offsets (nav.cls == .CTC_UNION)
                  nav.member_types_of 0).getD midx 0
                apply_designators_go mt rest (nav :: cots)
                  ((midx : Int) :: coeis) (offset + soffset)
  | nav, .index v :: rest, cots, coeis, offset =>
      if ¬ (nav.cls == .CTC_ARRAY) then none
      else if v < 0 then none
      else
        apply_designators_go nav.derived_from rest (nav :: cots)
          (v :: coeis) (offset + type_size nav.derived_from * v)

def apply_designators (ct : c_type) (ds : List desigr) :
    Option (List c_type × List Int × Int) :=
  apply_designators_go ct ds [] [] 0

/-- The descent loop (src/analyze.c:263-289): while the element type is an
aggregate, push it and the current index and step to its first
member/element.  Returns the final element type, the stacks and the current
index. -/
def inlist_descend : c_type → List c_type → List Int → Int →
    (c_type × List c_type × List Int × Int)
  | .arr q elem l, cots, coeis, ei =>
      inlist_descend elem (.arr q elem l :: cots) (ei :: coeis) 0
  | .su u q g ns (t :: ts) cm, cots, coeis, ei =>
      inlist_descend t (.su u q g ns (t :: ts) cm :: cots) (ei :: coeis) 0
  | et, cots, coeis, ei => (et, cots, coeis, ei)

/-- The index-advance loop (src/analyze.c:295-321): bump the top index,
popping exhausted containers; track `ml` when the outermost container has
unknown length, and on the last initializer of the list when an inner
container is left unfinished. -/
def inlist_advance (ct : c_type) (is_last : Bool) :
    List c_type → List Int → Int → Int → (List c_type × List Int × Int)
  | [], coeis, ei, ml =>
      ([], (ei + 1) :: coeis.tail, ml)
  | cot :: cs, coeis, ei, ml =>
      let ei' := ei + 1
      let coeis' := ei' :: coeis.tail
      let count := get_aggregate_type_element_count (some (cot : c_type))
      if count == -1 then
        (cot :: cs, coeis', if cot == ct then ei' else ml)
      else if count ≤ ei' then
        inlist_advance ct is_last cs coeis'.tail (coeis'.tail.headD 0) ml
      else
        (cot :: cs, coeis', if is_last && !(cot == ct) then ml + 1 else ml)

mutual

/-- The annotation of an initializer the elaborator never reached: every
offset stays unassigned. -/
def unassigned_ann : init_item → ann_init
  | .expr => .expr none none
  | .ilist items => .ilist none (unassigned_anns items)

def unassigned_anns : List (Option (List desigr) × init_item) → List ann_init
  | [] => []
  | (_, it) :: rest => unassigned_ann it :: unassigned_anns rest

end

/-- The annotation of the initializer that would write past the object
(src/analyze.c:195): its own offset is set to -1, nothing below it is
touched. -/
def oob_ann : init_item → ann_init
  | .expr => .expr (some (-1)) none
  | .ilist items => .ilist (some (-1)) (unassigned_anns items)

/-- The outcome of elaborating one initializer list: the annotations of its
items, the number of would-write-outside diagnostics issued by this list's
own loop (`own_oob`), the item index at which that happened, whether the
loop was abandoned by an early `return` (designator or target-type errors),
and the final running maximum `ml`. -/
structure inlist_result where
  anns : List ann_init
  own_oob : Nat
  oob_at : Option Nat
  aborted : Bool
  ml : Int

/-- The per-item prolog of the loop of `add_initializer_list_semantics`
(src/analyze.c:113-222), which does not depend on the initializer itself:
apply the designation if present, peek the container stack (an empty stack
is the would-write-outside event), compute the current element type, check
ISO 6.7.8 (3), and align the offset.  `p_abort` is the diagnose-and-return
outcome, `p_oob` the offset=-1-and-break outcome; `p_target` carries the
element type, the aligned offset, the current element index and the (possibly
designation-reset) stacks. -/
inductive inlist_plan where
  | p_abort
  | p_oob
  | p_target (et : c_type) (offset : Int) (ei : Int) (cots : List c_type)
      (coeis : List Int)

def inlist_step_plan (ct : c_type) (st : elab_state)
    (desig : Option (List desigr)) : inlist_plan :=
  let st? : Option elab_state :=
    match desig with
    | none => some st
    | some ds =>
        match apply_designators ct ds with
        | none => none
        | some (cots, coeis, off) =>
            some { cot_stack := cots, coei_stack := coeis, offset := off,
                   ml := st.ml }
  match st? with
  | none => .p_abort
  | some st =>
    match st.cot_stack.head? with
    | none => .p_oob
    | some cot =>
      let ei : Int := st.coei_stack.headD 0
      let et? : Option c_type :=
        if cot.cls == .CTC_ARRAY then some cot.derived_from
        else cot.member_types_of.get? ei.toNat
      match et? with
      | none => .p_abort
      | some et =>
        if ¬ (type_is_object_type et ||
              (et.cls == .CTC_ARRAY && !type_is_vla et)) then .p_abort
        else
          .p_target et (align_up st.offset (type_alignment et)) ei
            st.cot_stack st.coei_stack

/-- The length finalization (src/analyze.c:327): after a completed loop (no
early return), an outermost array container of unspecified length gets its
length set to `ml`. -/
def inlist_finalize (ct : c_type) (r : inlist_result) : c_type :=
  if r.aborted then ct
  else
    match ct with
    | .arr q t none => .arr q t (some r.ml)
    | t => t

/-- The loop of `add_initializer_list_semantics` (src/analyze.c:111-322)
over the remaining initializers. -/
def inlist_go (ct : c_type) (st : elab_state) :
    List (Option (List desigr) × init_item) → inlist_result
  | [] => ⟨[], 0, none, false, st.ml⟩
  | (desig, item) :: rest =>
      match inlist_step_plan ct st desig, item with
      | .p_abort, item =>
          ⟨unassigned_ann item :: unassigned_anns rest, 0, none, true, st.ml⟩
      | .p_oob, item =>
          ⟨oob_ann item :: unassigned_anns rest, 1, some 0, false, st.ml⟩
      | .p_target et offset ei cots coeis, .ilist inner =>
          let r := inlist_go et ⟨[et], [0], 0, 1⟩ inner
          let et' := inlist_finalize et r
          let a := inlist_advance ct rest.isEmpty cots coeis ei st.ml
          let r2 := inlist_go ct
            ⟨a.1, a.2.1, offset + type_size et', a.2.2⟩ rest
          ⟨.ilist (some offset) r.anns :: r2.anns, r2.own_oob,
           r2.oob_at.map (· + 1), r2.aborted, r2.ml⟩
      | .p_target et offset ei cots coeis, .expr =>
          let d := inlist_descend et cots coeis ei
          let a := inlist_advance ct rest.isEmpty d.2.1 d.2.2.1 d.2.2.2 st.ml
          let r2 := inlist_go ct
            ⟨a.1, a.2.1, offset + type_size d.1, a.2.2⟩ rest
          ⟨.expr (some offset) (some d.1) :: r2.anns, r2.own_oob,
           r2.oob_at.map (· + 1), r2.aborted, r2.ml⟩
termination_by items => sizeOf items

/-- `add_initializer_list_semantics` (src/analyze.c:96): elaborate the list
against the target type, returning the result and the possibly finalized
target type. -/
def add_initializer_list_semantics (ct : c_type)
    (items : List (Option (List desigr) × init_item)) :
    inlist_result × c_type :=
  let r := inlist_go ct ⟨[ct], [0], 0, 1⟩ items
  (r, inlist_finalize ct r)

mutual

/-- The initializer-list arm of `analyze_static_initializer_after`
(src/analyze.c:1166), abstracted to the write positions: the list of base
offsets at which leaves emit their bytes.  A child whose recorded offset is
-1 is skipped; a child the elaborator never reached keeps the `calloc`
default 0, which is what `getD 0` reads. -/
def analyze_static_initializer_offsets (base : Int) : ann_init → List Int
  | .expr _ _ => [base]
  | .ilist _ items => static_init_items base items

def static_init_items (base : Int) : List ann_init → List Int
  | [] => []
  | it :: rest =>
      (if it.offset_top == some (-1) then []
       else analyze_static_initializer_offsets
         (base + (it.offset_top.getD 0)) it) ++
      static_init_items base rest

end

/-- The well-formedness of the annotations after a would-write-outside
event at item index `i`: that item's recorded offset is -1 and no later
item of the list was assigned an offset. -/
def anns_oob_ok : Option Nat → List ann_init → Prop
  | none, _ => True
  | some 0, [] => False
  | some 0, a :: rest =>
      a.offset_top = some (-1) ∧ ∀ b ∈ rest, b.offset_top = none
  | some (_ + 1), [] => False
  | some (n + 1), _ :: rest => anns_oob_ok (some n) rest

theorem unassigned_anns_length (l : List (Option (List desigr) × init_item)) :
    (unassigned_anns l).length = l.length := by
  induction l with
  | nil => rfl
  | cons hd rest ih =>
      obtain ⟨d, it⟩ := hd
      simp [unassigned_anns, ih]

theorem unassigned_ann_offset_top (it : init_item) :
    (unassigned_ann it).offset_top = none := by
  cases it <;> rfl

theorem unassigned_anns_offsets (l : List (Option (List desigr) × init_item))
    (b : ann_init) (hb : b ∈ unassigned_anns l) : b.offset_top = none := by
  induction l with
  | nil => simp [unassigned_anns] at hb
  | cons hd rest ih =>
      obtain ⟨d, it⟩ := hd
      simp only [unassigned_anns, List.mem_cons] at hb
      rcases hb with rfl | hb
      · exact unassigned_ann_offset_top it
      · exact ih hb

theorem oob_ann_offset_top (it : init_item) :
    (oob_ann it).offset_top = some (-1) := by
  cases it <;> rfl

/-- The three facts claim C8 states about one elaboration: the list's own
loop reports the would-write-outside diagnostic exactly once when it
happens and never otherwise; the annotations record -1 on the triggering
item and leave every later item unassigned; and every item got an
annotation. -/
def inlist_result_ok (r : inlist_result) (n : Nat) : Prop :=
  r.own_oob = (if r.oob_at.isSome then 1 else 0) ∧
  anns_oob_ok r.oob_at r.anns ∧
  r.anns.length = n

theorem inlist_result_ok_cons (ann : ann_init) (r2 : inlist_result) (n : Nat)
    (h : inlist_result_ok r2 n) :
    inlist_result_ok
      ⟨ann :: r2.anns, r2.own_oob, r2.oob_at.map (· + 1), r2.aborted, r2.ml⟩
      (n + 1) := by
  obtain ⟨h1, h2, h3⟩ := h
  refine ⟨by simpa using h1, ?_, by simp [h3]⟩
  cases hoob : r2.oob_at with
  | none => simp [anns_oob_ok, hoob]
  | some i =>
      rw [hoob] at h2
      simpa [anns_oob_ok, hoob] using h2

theorem inlist_result_ok_abort (item : init_item)
    (rest : List (Option (List desigr) × init_item)) (m : Int) :
    inlist_result_ok
      ⟨unassigned_ann item :: unassigned_anns rest, 0, none, true, m⟩
      (rest.length + 1) := by
  refine ⟨rfl, trivial, ?_⟩
  simp [unassigned_anns_length]

theorem inlist_result_ok_oob (item : init_item)
    (rest : List (Option (List desigr) × init_item)) (m : Int) :
    inlist_result_ok
      ⟨oob_ann item :: unassigned_anns rest, 1, some 0, false, m⟩
      (rest.length + 1) := by
  refine ⟨rfl, ⟨oob_ann_offset_top item,
    fun b hb => unassigned_anns_offsets rest b hb⟩, ?_⟩
  simp [unassigned_anns_length]

theorem inlist_go_ok (ct : c_type)
    (items : List (Option (List desigr) × init_item)) (st : elab_state) :
    inlist_result_ok (inlist_go ct st items) items.length := by
  induction items generalizing st with
  | nil =>
      rw [inlist_go]
      exact ⟨rfl, trivial, rfl⟩
  | cons hd rest ih =>
      obtain ⟨desig, item⟩ := hd
      cases hplan : inlist_step_plan ct st desig with
      | p_abort =>
          rw [inlist_go.eq_2 ct st desig rest item hplan]
          exact inlist_result_ok_abort item rest _
      | p_oob =>
          rw [inlist_go.eq_3 ct st desig rest item hplan]
          exact inlist_result_ok_oob item rest _
      | p_target et offset ei cots coeis =>
          cases item with
          | ilist inner =>
              rw [inlist_go.eq_4 ct st desig rest et offset ei cots coeis
                inner hplan]
              exact inlist_result_ok_cons _ _ _ (ih _)
          | expr =>
              rw [inlist_go.eq_5 ct st desig rest et offset ei cots coeis
                hplan]
              exact inlist_result_ok_cons _ _ _ (ih _)

theorem static_init_items_skip (base : Int) (l : List ann_init) :
    static_init_items base l =
      static_init_items base
        (l.filter (fun a => !(a.offset_top == some (-1)))) := by
  induction l with
  | nil => rfl
  | cons it rest ih =>
      by_cases h : it.offset_top = some (-1)
      · have hb : (it.offset_top == some (-1)) = true := by
          simp [h]
        simp [static_init_items, List.filter_cons, hb, ih]
      · have hb : (it.offset_top == some (-1)) = false := by
          simp [h]
        simp [static_init_items, List.filter_cons, hb, ih]

/-- C8: during elaboration of an initializer list, the would-write-outside
event is reported exactly once for the list (`own_oob` is 1 when it occurs
and 0 otherwise), the triggering initializer's recorded offset is -1 and no
later initializer of the list is assigned an offset (`anns_oob_ok`), every
item receives an annotation slot, and static-image emission skips every
initializer whose recorded offset is -1: removing those items does not
change the emitted write positions. -/
theorem initializer_out_of_bounds_once (ct : c_type)
    (items : List (Option (List desigr) × init_item)) (base : Int)
    (l : List ann_init) :
    inlist_result_ok ((add_initializer_list_semantics ct items).1)
      items.length ∧
    static_init_items base l =
      static_init_items base
        (l.filter (fun a => !(a.offset_top == some (-1)))) :=
  ⟨inlist_go_ok ct items _, static_init_items_skip base l⟩

end Ecc
